import Mathlib

/-!
Verification development for the AIDebugHelper detection engine
(`src/utils/patterns.ts` and the health-score computation in `src/App.tsx`).

Strings are embedded as `List Char` (the inputs of interest are ASCII, and
JavaScript string indices coincide with character positions there).  The
JavaScript regular expressions of the pattern tables are embedded as an
explicit syntax tree `RE` together with a backtracking matcher that follows
the JavaScript semantics: alternation is ordered left-first, quantifiers are
greedy, `exec` with the `g` flag restarts at `lastIndex = index + length`.
-/

namespace AIDebug

-- Strings as character lists.
abbrev Str := List Char

def str (s : String) : Str := s.data

-- JavaScript `String.prototype.includes` (substring containment).
def containsSub (hay needle : Str) : Bool :=
  (List.range (hay.length + 1)).any (fun i => needle.isPrefixOf (hay.drop i))

-- JavaScript `String.prototype.lastIndexOf` for a single character: -1 if absent.
def lastIndexOfChar (c : Char) (s : Str) : Int :=
  match s.reverse.findIdx? (fun x => x = c) with
  | none => -1
  | some i => (s.length : Int) - 1 - (i : Int)

-- JavaScript `String.prototype.split(sep)` for a single-character separator.
def splitOnChar (c : Char) : Str → List Str
  | [] => [[]]
  | x :: xs =>
    let r := splitOnChar c xs
    if x = c then [] :: r
    else
      match r with
      | [] => [[x]]
      | h :: t => (x :: h) :: t

-- First index of a substring occurrence (JavaScript `indexOf`), if any.
def firstIndexOfSub (s pat : Str) : Option Nat :=
  (List.range (s.length + 1)).find? (fun i => pat.isPrefixOf (s.drop i))

-- JavaScript `String.prototype.replace(pat, rep)` with a string pattern:
-- replaces the first occurrence only, returns the input unchanged if absent.
def replaceFirst (s pat rep : Str) : Str :=
  match firstIndexOfSub s pat with
  | none => s
  | some i => s.take i ++ rep ++ s.drop (i + pat.length)

-- Decimal digits of a natural number, most significant first.  The fuel is
-- structural so that the kernel can evaluate it; `n + 1` steps always suffice.
def natDigitsAux : Nat → Nat → Str
  | 0, _ => []
  | fuel + 1, n =>
    if n < 10 then [Nat.digitChar n]
    else natDigitsAux fuel (n / 10) ++ [Nat.digitChar (n % 10)]

def natDigits (n : Nat) : Str := natDigitsAux (n + 1) n

def isWsChar (c : Char) : Bool :=
  c = ' ' || c = '\t' || c = '\n' || c = '\x0d' || c = '\x0b' || c = '\x0c'

def isWordChar (c : Char) : Bool := c.isAlphanum || c = '_'

def trimStr (s : Str) : Str :=
  ((s.dropWhile isWsChar).reverse.dropWhile isWsChar).reverse

def toUpperStr (s : Str) : Str := s.map Char.toUpper

/-! ### Regular-expression syntax

Character classes are a polarity flag plus a list of items; `⟨true, l⟩` is a
negated class `[^l]`. -/

inductive CItem where
  | ch (c : Char)
  | ws
  | word
  | digit
deriving DecidableEq, Repr

structure CC where
  neg : Bool
  items : List CItem
deriving DecidableEq, Repr

def citemMatch (ci : Bool) (it : CItem) (c : Char) : Bool :=
  match it with
  | .ch d => c = d || (ci && c.toLower = d.toLower)
  | .ws => isWsChar c
  | .word => isWordChar c
  | .digit => c.isDigit

def ccMatch (ci : Bool) (cc : CC) (c : Char) : Bool :=
  let m := cc.items.any (fun it => citemMatch ci it c)
  if cc.neg then !m else m

def ccOf (cs : List Char) : CC := ⟨false, cs.map CItem.ch⟩
def ccNot (is : List CItem) : CC := ⟨true, is⟩
def csWs : CC := ⟨false, [.ws]⟩
def csWord : CC := ⟨false, [.word]⟩
def csDigit : CC := ⟨false, [.digit]⟩
-- JavaScript `.` (no `s` flag): any character except line terminators.
def csDot : CC := ⟨true, [.ch '\n', .ch '\x0d']⟩
-- `[\s\S]`: any character.
def csAny : CC := ⟨true, []⟩

/-- Regular expressions, restricted to the constructs the source tables use.
Quantifiers only ever apply to single character classes in the source, so the
quantified forms take a `CC` body; `nla`/`nlb` are negative look-ahead and
look-behind, `wb` is `\b`, `bol` is multiline `^`, `eos` is `$`. -/
inductive RE where
  | eps
  | cls (c : CC)
  | lit (s : Str)
  | seq (a b : RE)
  | alt (a b : RE)
  | star (c : CC)
  | plus (c : CC)
  | repGe (n : Nat) (c : CC)
  | opt (a : RE)
  | nla (a : RE)
  | nlb (a : RE)
  | wb
  | bol
  | eos
deriving Repr

def cat (rs : List RE) : RE := rs.foldr RE.seq RE.eps

def rLit (s : String) : RE := .lit s.data

def rCh (c : Char) : RE := .lit [c]

def rAlts : List RE → RE
  | [] => RE.eps
  | [r] => r
  | r :: rest => RE.alt r (rAlts rest)

def rAltL (ss : List String) : RE := rAlts (ss.map rLit)

def ws0 : RE := .star csWs
def ws1 : RE := .plus csWs
def w0 : RE := .star csWord
def w1 : RE := .plus csWord

/-! ### The matcher

`tryMatch ci s r i k` attempts to match `r` at position `i` of `s`, calling
the continuation `k` with each candidate end position in JavaScript
backtracking order (greedy first, leftmost alternative first) until `k`
succeeds. -/

-- Case-folding comparison of a literal against the input at the current point.
def litCmp (ci : Bool) : Str → Str → Bool
  | _, [] => true
  | [], _ :: _ => false
  | x :: xs, y :: ys => (x = y || (ci && x.toLower = y.toLower)) && litCmp ci xs ys

-- Length of the maximal run of class characters starting at `i`.
def runLen (ci : Bool) (c : CC) (s : Str) (i : Nat) : Nat :=
  ((s.drop i).takeWhile (fun ch => ccMatch ci c ch)).length

-- Greedy backtracking over a quantifier: try the longest extension first.
def tryUpTo (k : Nat → Option Nat) (i : Nat) : Nat → Option Nat
  | 0 => k i
  | t + 1 => (k (i + t + 1)) <|> tryUpTo k i t

def wordAtOpt : Option Char → Bool
  | some c => isWordChar c
  | none => false

def wordBoundary (s : Str) (i : Nat) : Bool :=
  wordAtOpt (if i = 0 then none else s[i - 1]?) != wordAtOpt s[i]?

-- `{n,}`: consume exactly `n` class characters, then behave like a star.
def repMatch (ci : Bool) (s : Str) : Nat → CC → Nat → (Nat → Option Nat) → Option Nat
  | 0, c, i, k => tryUpTo k i (runLen ci c s i)
  | n + 1, c, i, k =>
    match s[i]? with
    | some ch => if ccMatch ci c ch then repMatch ci s n c (i + 1) k else none
    | none => none

def tryMatch (ci : Bool) (s : Str) : RE → Nat → (Nat → Option Nat) → Option Nat
  | .eps, i, k => k i
  | .cls c, i, k =>
    match s[i]? with
    | some ch => if ccMatch ci c ch then k (i + 1) else none
    | none => none
  | .lit l, i, k => if litCmp ci (s.drop i) l then k (i + l.length) else none
  | .seq a b, i, k => tryMatch ci s a i (fun j => tryMatch ci s b j k)
  | .alt a b, i, k => (tryMatch ci s a i k) <|> (tryMatch ci s b i k)
  | .star c, i, k => tryUpTo k i (runLen ci c s i)
  | .plus c, i, k =>
    match s[i]? with
    | some ch =>
      if ccMatch ci c ch then tryUpTo k (i + 1) (runLen ci c s (i + 1)) else none
    | none => none
  | .repGe n c, i, k => repMatch ci s n c i k
  | .opt a, i, k => (tryMatch ci s a i k) <|> k i
  | .nla a, i, k =>
    match tryMatch ci s a i some with
    | some _ => none
    | none => k i
  | .nlb a, i, k =>
    if (List.range (i + 1)).any
        (fun j => (tryMatch ci s a j (fun e => if e = i then some e else none)).isSome)
    then none else k i
  | .wb, i, k => if wordBoundary s i then k i else none
  | .bol, i, k =>
    if i = 0 then k i
    else
      match s[i - 1]? with
      | some c => if c = '\n' || c = '\x0d' then k i else none
      | none => none
  | .eos, i, k => if i = s.length then k i else none

-- First match at or after position `p`: (start, end) in character offsets.
def findMatchFrom (ci : Bool) (r : RE) (s : Str) (p : Nat) : Option (Nat × Nat) :=
  (List.range' p (s.length + 1 - p)).findSome?
    (fun i => (tryMatch ci s r i some).map (fun e => (i, e)))

/-- All matches of the `g`-flag `exec` loop of `applyPatterns`: after a match
`(i, e)` the search restarts at `lastIndex = e`.  The fuel bounds the loop;
none of the source regexes admits an empty match, so the fuel never runs out
on a terminating JavaScript run. -/
def execAllAux (ci : Bool) (r : RE) (s : Str) : Nat → Nat → List (Nat × Nat)
  | 0, _ => []
  | fuel + 1, pos =>
    match findMatchFrom ci r s pos with
    | none => []
    | some (i, e) => (i, e) :: execAllAux ci r s fuel e

def execAll (ci : Bool) (r : RE) (s : Str) : List (Nat × Nat) :=
  execAllAux ci r s (s.length + 1) 0

-- JavaScript `RegExp.prototype.test`.
def reTest (ci : Bool) (r : RE) (s : Str) : Bool := (findMatchFrom ci r s 0).isSome

-- JavaScript `String.prototype.replace` with a non-global regex pattern.
def regexReplaceFirst (ci : Bool) (r : RE) (s : Str) (rep : Str) : Str :=
  match findMatchFrom ci r s 0 with
  | none => s
  | some (i, e) => s.take i ++ rep ++ s.drop e

/-! ### Data model (`patterns.ts`) -/

inductive Severity where
  | Critical
  | Warning
  | Info
deriving DecidableEq, Repr

inductive Language where
  | javascript
  | typescript
  | python
  | go
  | rust
  | java
  | cpp
deriving DecidableEq, Repr

structure Issue where
  id : Str
  line : Nat
  type : Str
  severity : Severity
  description : Str
  fix : Str
  startIndex : Nat
  endIndex : Nat
  replacement : Str
  why : Str
deriving DecidableEq, Repr

/-- A detection rule.  `exec` is the `g`-flag scan of the rule's regex over
the whole input and `correction` the rule's correction function; both return
`none` exactly when the JavaScript original would throw (the `try`/`catch` in
`applyPatterns` is modelled by `Option`).  The concrete table rules below
never fail. -/
structure Pattern where
  id : Str
  type : Str
  severity : Severity
  exec : Str → Option (List (Nat × Nat))
  description : Str
  fixDescription : Str
  correction : Str → Option Str
  why : Str

/-- Scan semantics of a table rule: `applyPatterns` rebuilds each rule regex
as `new RegExp(pattern.regex, 'g')`,
which *replaces* the original flags, so the `i` flag of the tables is dropped
during scanning: every table regex is matched case-sensitively. -/
def reExec (r : RE) : Str → Option (List (Nat × Nat)) :=
  fun s => some (execAll false r s)

/-! ### Universal patterns -/

def qcc : CC := ccOf ['\x27', '"']
def notQcc : CC := ccNot [.ch '"', .ch '\x27']

-- /(API_KEY|SECRET|TOKEN|PASSWORD|PRIVATE_KEY|ACCESS_KEY|AUTH_TOKEN)\s*=\s*['"][^'"]{5,}['"]/i
def reHardcodedSecrets : RE :=
  cat [rAltL ["API_KEY", "SECRET", "TOKEN", "PASSWORD", "PRIVATE_KEY", "ACCESS_KEY",
        "AUTH_TOKEN"],
    ws0, rCh '=', ws0, .cls qcc, .repGe 5 notQcc, .cls qcc]

-- /=\s*["'][^"']*(?:SELECT|INSERT|UPDATE|DELETE|FROM|WHERE)[^"']*["']\s*\+\s*\w+/i
def reSqlInjection : RE :=
  cat [rCh '=', ws0, .cls qcc, .star notQcc,
    rAltL ["SELECT", "INSERT", "UPDATE", "DELETE", "FROM", "WHERE"],
    .star notQcc, .cls qcc, ws0, rCh '+', ws0, w1]

-- /\beval\s*\(/
def reEvalUsage : RE := cat [.wb, rLit "eval", ws0, rCh '(']

def SECURITY_PATTERNS : List Pattern := [
  { id := str "hardcoded-secrets", type := str "Security Risk", severity := .Critical,
    exec := reExec reHardcodedSecrets,
    description := str "Hardcoded secret detected",
    fixDescription := str "Use environment variables",
    correction := fun m =>
      let parts0 := m.takeWhile (fun c => c != '=')
      some (parts0 ++ str "= process.env." ++
        ((toUpperStr (trimStr parts0)).map (fun c => if isWsChar c then '_' else c))),
    why := str "Hardcoding secrets exposes them in version control. Use environment variables or secret managers." },
  { id := str "sql-injection", type := str "Security Risk", severity := .Critical,
    exec := reExec reSqlInjection,
    description := str "Potential SQL injection vulnerability",
    fixDescription := str "Use parameterized queries",
    correction := fun m => some (str "/* SQL INJECTION RISK: " ++ m ++ str " */"),
    why := str "String concatenation in SQL queries allows attackers to inject malicious SQL code." },
  { id := str "eval-usage", type := str "Security Risk", severity := .Critical,
    exec := reExec reEvalUsage,
    description := str "eval() usage detected",
    fixDescription := str "Avoid eval, use safer alternatives",
    correction := fun m => some (str "// REMOVED: " ++ m),
    why := str "eval() executes arbitrary code and is a major security vulnerability." }]

-- /while\s*\((?:true|1|True)\)/
def reInfiniteLoop : RE :=
  cat [rLit "while", ws0, rCh '(', rAltL ["true", "1", "True"], rCh ')']

-- /\/\s*0(?:[^\d.]|$)/
def reDivisionByZero : RE :=
  cat [rCh '/', ws0, rCh '0', .alt (.cls (ccNot [.digit, .ch '.'])) .eos]

def RUNTIME_PATTERNS : List Pattern := [
  { id := str "infinite-loop", type := str "Runtime Error", severity := .Critical,
    exec := reExec reInfiniteLoop,
    description := str "Potential infinite loop",
    fixDescription := str "Ensure break condition exists",
    correction := fun m => some m,
    why := str "Infinite loops freeze the application, causing denial of service." },
  { id := str "division-by-zero", type := str "Runtime Error", severity := .Warning,
    exec := reExec reDivisionByZero,
    description := str "Potential division by zero",
    fixDescription := str "Add zero check",
    correction := fun m => some m,
    why := str "Division by zero causes runtime errors or undefined behavior." }]

-- /(?:\/\/|#|\/\*)\s*(?:TODO|FIXME|HACK|XXX|BUG):?/i
def reTodoComment : RE :=
  cat [rAltL ["//", "#", "/*"], ws0, rAltL ["TODO", "FIXME", "HACK", "XXX", "BUG"],
    .opt (rCh ':')]

-- /(?:debugger|console\.debug|System\.out\.print|fmt\.Print|println!)/
def reDebugCode : RE :=
  rAltL ["debugger", "console.debug", "System.out.print", "fmt.Print", "println!"]

-- /catch\s*\([^)]*\)\s*\{\s*\}/
def reEmptyCatch : RE :=
  cat [rLit "catch", ws0, rCh '(', .star (ccNot [.ch ')']), rCh ')', ws0,
    rCh '\x7b', ws0, rCh '\x7d']

def QUALITY_PATTERNS : List Pattern := [
  { id := str "todo-comment", type := str "Code Quality", severity := .Info,
    exec := reExec reTodoComment,
    description := str "Unresolved TODO/FIXME comment",
    fixDescription := str "Address or remove",
    correction := fun _ => some [],
    why := str "Production code should not have unresolved tasks." },
  { id := str "debug-code", type := str "Code Quality", severity := .Info,
    exec := reExec reDebugCode,
    description := str "Debug code left in production",
    fixDescription := str "Remove debug statements",
    correction := fun _ => some [],
    why := str "Debug statements should be removed before production." },
  { id := str "empty-catch", type := str "Code Quality", severity := .Warning,
    exec := reExec reEmptyCatch,
    description := str "Empty catch block",
    fixDescription := str "Handle or log the error",
    correction := fun m =>
      some (replaceFirst m (str "\x7b\x7d") (str "\x7b console.error(err); \x7d")),
    why := str "Empty catch blocks silently swallow errors, making debugging difficult." }]

/-! ### JavaScript / TypeScript patterns -/

def reHallucinatedIsEmpty : RE :=
  cat [rCh '.', ws0, rLit "isEmpty", ws0, rCh '(', ws0, rCh ')']

def reHallucinatedContains : RE := cat [rCh '.', ws0, rLit "contains", ws0, rCh '(']

def reVarUsage : RE := cat [.wb, rLit "var", ws1, w1]

-- /[^!=]==(?!=)/
def reLooseEquality : RE := cat [.cls (ccNot [.ch '!', .ch '=']), rLit "==", .nla (rCh '=')]

-- /console\.(log|warn|error|info)\s*\([^;]*\);?/
def reConsoleLog : RE :=
  cat [rLit "console.", rAltL ["log", "warn", "error", "info"], ws0, rCh '(',
    .star (ccNot [.ch ';']), rCh ')', .opt (rCh ';')]

-- /\.then\s*\([^)]*\)(?!\s*\.catch)/
def rePromiseNoCatch : RE :=
  cat [rLit ".then", ws0, rCh '(', .star (ccNot [.ch ')']), rCh ')',
    .nla (cat [ws0, rLit ".catch"])]

-- /async\s+(?:function\s+\w+|\([^)]*\)\s*=>|\w+\s*=>)\s*\{(?![^}]*try)/
def reAsyncNoTry : RE :=
  cat [rLit "async", ws1,
    rAlts [cat [rLit "function", ws1, w1],
      cat [rCh '(', .star (ccNot [.ch ')']), rCh ')', ws0, rLit "=>"],
      cat [w1, ws0, rLit "=>"]],
    ws0, rCh '\x7b', .nla (cat [.star (ccNot [.ch '\x7d']), rLit "try"])]

def reDangerouslySetHtml : RE := rLit "dangerouslySetInnerHTML"

def reDocumentWrite : RE := cat [rLit "document.write", ws0, rCh '(']

def reHallucinatedIsNotEmpty : RE :=
  cat [rCh '.', ws0, rLit "isNotEmpty", ws0, rCh '(', ws0, rCh ')']

-- /\.\s*remove\s*\([^)]+\)/
def reHallucinatedRemove : RE :=
  cat [rCh '.', ws0, rLit "remove", ws0, rCh '(', .plus (ccNot [.ch ')']), rCh ')']

-- /\w+\.\s*clear\s*\(\s*\)/
def reHallucinatedClear : RE :=
  cat [w1, rCh '.', ws0, rLit "clear", ws0, rCh '(', ws0, rCh ')']

-- /(?<!await\s+)response\.json\s*\(\s*\)/
def reMissingAwaitJson : RE :=
  cat [.nlb (cat [rLit "await", ws1]), rLit "response.json", ws0, rCh '(', ws0, rCh ')']

-- /(?<!await\s+)response\.text\s*\(\s*\)/
def reMissingAwaitText : RE :=
  cat [.nlb (cat [rLit "await", ws1]), rLit "response.text", ws0, rCh '(', ws0, rCh ')']

def JS_TS_PATTERNS : List Pattern := [
  { id := str "hallucinated-isempty", type := str "Hallucination", severity := .Critical,
    exec := reExec reHallucinatedIsEmpty,
    description := str "Array.isEmpty() does not exist in JS",
    fixDescription := str "Use .length === 0",
    correction := fun _ => some (str ".length === 0"),
    why := str "AI often hallucinates .isEmpty() from Java. In JS, use .length === 0." },
  { id := str "hallucinated-contains", type := str "Hallucination", severity := .Critical,
    exec := reExec reHallucinatedContains,
    description := str "Array.contains() does not exist in JS",
    fixDescription := str "Use .includes()",
    correction := fun m => some (replaceFirst m (str "contains") (str "includes")),
    why := str "Use .includes() for arrays or strings in JavaScript." },
  { id := str "var-usage", type := str "Deprecated", severity := .Warning,
    exec := reExec reVarUsage,
    description := str "Using var instead of let/const",
    fixDescription := str "Use let or const",
    correction := fun m => some (replaceFirst m (str "var") (str "const")),
    why := str "var has function scope which leads to bugs. Use block-scoped let/const." },
  { id := str "loose-equality", type := str "Code Quality", severity := .Info,
    exec := reExec reLooseEquality,
    description := str "Loose equality (==)",
    fixDescription := str "Use strict equality (===)",
    correction := fun m => some (replaceFirst m (str "==") (str "===")),
    why := str "Type coercion in == leads to unexpected comparisons." },
  { id := str "console-log", type := str "Code Quality", severity := .Info,
    exec := reExec reConsoleLog,
    description := str "Console statement in code",
    fixDescription := str "Comment out console statements",
    correction := fun m => some (str "// " ++ m),
    why := str "Console statements should be removed in production code." },
  { id := str "promise-no-catch", type := str "Missing Error Handling", severity := .Warning,
    exec := reExec rePromiseNoCatch,
    description := str "Promise without .catch()",
    fixDescription := str "Add .catch() handler",
    correction := fun m => some (m ++ str ".catch(err => console.error(err))"),
    why := str "Unhandled promise rejections can crash the application." },
  { id := str "async-no-try", type := str "Missing Error Handling", severity := .Warning,
    exec := reExec reAsyncNoTry,
    description := str "Async function without try-catch",
    fixDescription := str "Wrap in try-catch",
    correction := fun m => some m,
    why := str "Async functions should handle errors with try-catch." },
  { id := str "dangerously-set-html", type := str "Security Risk", severity := .Critical,
    exec := reExec reDangerouslySetHtml,
    description := str "dangerouslySetInnerHTML usage",
    fixDescription := str "Sanitize HTML or avoid",
    correction := fun m => some m,
    why := str "Can lead to XSS attacks if HTML is not properly sanitized." },
  { id := str "document-write", type := str "Security Risk", severity := .Warning,
    exec := reExec reDocumentWrite,
    description := str "document.write() usage",
    fixDescription := str "Use DOM manipulation",
    correction := fun m => some m,
    why := str "document.write() is outdated and can cause security/performance issues." },
  { id := str "hallucinated-isnotempty", type := str "Hallucination", severity := .Critical,
    exec := reExec reHallucinatedIsNotEmpty,
    description := str "Array.isNotEmpty() does not exist in JS",
    fixDescription := str "Use .length > 0",
    correction := fun _ => some (str ".length > 0"),
    why := str "AI hallucinates .isNotEmpty() from other languages. Use .length > 0." },
  { id := str "hallucinated-remove", type := str "Hallucination", severity := .Critical,
    exec := reExec reHallucinatedRemove,
    description := str "Array.remove() does not exist in JS",
    fixDescription := str "Use .filter() or .splice()",
    correction := fun m => some (replaceFirst m (str ".remove") (str ".filter")),
    why := str "Use .filter() to create a new array without the element, or .splice() to modify in place." },
  { id := str "hallucinated-clear", type := str "Hallucination", severity := .Critical,
    exec := reExec reHallucinatedClear,
    description := str "Array.clear() does not exist in JS",
    fixDescription := str "Use arr.length = 0",
    correction := fun m => some (replaceFirst m (str ".clear()") (str ".length = 0")),
    why := str "To clear an array in JS, set .length = 0 or reassign to []." },
  { id := str "missing-await-json", type := str "Runtime Error", severity := .Critical,
    exec := reExec reMissingAwaitJson,
    description := str "Missing await on .json()",
    fixDescription := str "Add await keyword",
    correction := fun m => some (str "await " ++ m),
    why := str "response.json() returns a Promise. Without await, you get the Promise, not the data." },
  { id := str "missing-await-text", type := str "Runtime Error", severity := .Critical,
    exec := reExec reMissingAwaitText,
    description := str "Missing await on .text()",
    fixDescription := str "Add await keyword",
    correction := fun m => some (str "await " ++ m),
    why := str "response.text() returns a Promise. Without await, you get the Promise, not the text." }]

/-! ### Python patterns -/

-- The inner group of /def\s+\w+\s*\([^)]*=\s*(\[\]|\{\}|\set\(\))[^)]*\)\s*:/
-- (note: `\set\(\)` in the source is `\s` followed by the literal `et()`).
def reMutableDefaultGroup : RE :=
  rAlts [rLit "[]", rLit "\x7b\x7d", cat [.cls csWs, rLit "et()"]]

def reMutableDefault : RE :=
  cat [rLit "def", ws1, w1, ws0, rCh '(', .star (ccNot [.ch ')']), rCh '=', ws0,
    reMutableDefaultGroup, .star (ccNot [.ch ')']), rCh ')', ws0, rCh ':']

-- /=\s*(\[\]|\{\}|\set\(\))/ used by the mutable-default correction.
def reMutableDefaultRepl : RE := cat [rCh '=', ws0, reMutableDefaultGroup]

def reBareExcept : RE := cat [rLit "except", ws0, rCh ':']

-- /\s+is\s+(['"]|[0-9])/
def reIsLiteral : RE :=
  cat [ws1, rLit "is", ws1, .alt (.cls qcc) (.cls csDigit)]

def rePrintStatement : RE := cat [.wb, rLit "print", ws0, rCh '(']

def reDeprecatedTimeClock : RE := cat [rLit "time.clock", ws0, rCh '(', ws0, rCh ')']

def reDeprecatedOsPopen : RE := cat [rLit "os.popen", ws0, rCh '(']

-- /import\s+tensorflow\.(?:advanced|extras|utilities)/
def reHallucinatedTf : RE :=
  cat [rLit "import", ws1, rLit "tensorflow.", rAltL ["advanced", "extras", "utilities"]]

-- /[^f]['"].*\{[^}]+\}.*['"]/
def reFStringNoF : RE :=
  cat [.cls (ccNot [.ch 'f']), .cls qcc, .star csDot, rCh '\x7b',
    .plus (ccNot [.ch '\x7d']), rCh '\x7d', .star csDot, .cls qcc]

def rePandasIsEmpty : RE := cat [rLit ".isEmpty", ws0, rCh '(', ws0, rCh ')']

-- /def\s+\w+\s*\(\s*\)\s*:/
def reMissingSelf : RE :=
  cat [rLit "def", ws1, w1, ws0, rCh '(', ws0, rCh ')', ws0, rCh ':']

def reRequestsNoTry : RE :=
  cat [rLit "requests.", rAltL ["get", "post", "put", "delete", "patch"], ws0, rCh '(']

def PYTHON_PATTERNS : List Pattern := [
  { id := str "mutable-default", type := str "Runtime Error", severity := .Critical,
    exec := reExec reMutableDefault,
    description := str "Mutable default argument",
    fixDescription := str "Use None as default",
    correction := fun m => some (regexReplaceFirst false reMutableDefaultRepl m (str "=None")),
    why := str "Mutable defaults are shared between calls, causing unexpected behavior." },
  { id := str "bare-except", type := str "Code Quality", severity := .Warning,
    exec := reExec reBareExcept,
    description := str "Bare except clause",
    fixDescription := str "Specify exception type",
    correction := fun _ => some (str "except Exception:"),
    why := str "Bare except catches all exceptions including KeyboardInterrupt." },
  { id := str "is-literal", type := str "Logic Error", severity := .Warning,
    exec := reExec reIsLiteral,
    description := str "Using \x22is\x22 with literals",
    fixDescription := str "Use == for comparison",
    correction := fun m => some (replaceFirst m (str " is ") (str " == ")),
    why := str "\x22is\x22 checks identity, not equality. Use == for value comparison." },
  { id := str "print-statement", type := str "Code Quality", severity := .Info,
    exec := reExec rePrintStatement,
    description := str "Print statement in code",
    fixDescription := str "Use logging module",
    correction := fun m => some m,
    why := str "Use the logging module for production code." },
  { id := str "deprecated-time-clock", type := str "Deprecated", severity := .Warning,
    exec := reExec reDeprecatedTimeClock,
    description := str "time.clock() is deprecated",
    fixDescription := str "Use time.perf_counter()",
    correction := fun _ => some (str "time.perf_counter()"),
    why := str "Removed in Python 3.8. Use perf_counter() or process_time()." },
  { id := str "deprecated-os-popen", type := str "Deprecated", severity := .Warning,
    exec := reExec reDeprecatedOsPopen,
    description := str "os.popen() is deprecated",
    fixDescription := str "Use subprocess.run()",
    correction := fun _ => some (str "subprocess.run("),
    why := str "os.popen is deprecated. Use subprocess for process handling." },
  { id := str "hallucinated-tf", type := str "Hallucination", severity := .Critical,
    exec := reExec reHallucinatedTf,
    description := str "Hallucinated TensorFlow module",
    fixDescription := str "Check TensorFlow API docs",
    correction := fun _ => some (str "# Invalid import"),
    why := str "AI often invents non-existent TensorFlow submodules." },
  { id := str "f-string-no-f", type := str "Logic Error", severity := .Warning,
    exec := reExec reFStringNoF,
    description := str "String with \x7b\x7d but no f-prefix",
    fixDescription := str "Add f prefix for f-string",
    correction := fun m => some (str "f" ++ m),
    why := str "Curly braces without f-prefix are literal characters, not interpolation." },
  { id := str "pandas-isempty", type := str "Hallucination", severity := .Critical,
    exec := reExec rePandasIsEmpty,
    description := str "DataFrame.isEmpty() does not exist",
    fixDescription := str "Use .empty property",
    correction := fun _ => some (str ".empty"),
    why := str "pandas DataFrames use .empty property, not .isEmpty() method." },
  { id := str "missing-self", type := str "Logic Error", severity := .Critical,
    exec := reExec reMissingSelf,
    description := str "Method possibly missing self parameter",
    fixDescription := str "Add self as first parameter",
    correction := fun m => some (replaceFirst m (str "()") (str "(self)")),
    why := str "Instance methods require self as the first parameter." },
  { id := str "requests-no-try", type := str "Missing Error Handling", severity := .Warning,
    exec := reExec reRequestsNoTry,
    description := str "HTTP request without error handling",
    fixDescription := str "Wrap in try/except",
    correction := fun m => some m,
    why := str "Network requests can fail. Handle requests.exceptions.RequestException." }]

/-! ### Java patterns -/

-- /==\s*["'][^"']*["']/
def reStringEquals : RE := cat [rLit "==", ws0, .cls qcc, .star notQcc, .cls qcc]

def reRawType : RE :=
  cat [rAltL ["List", "Map", "Set", "ArrayList", "HashMap", "HashSet"], ws1, w1, ws0,
    rCh '=']

def reSystemExit : RE := cat [rLit "System.exit", ws0, rCh '(']

def rePrintStackTrace : RE := cat [rLit ".printStackTrace", ws0, rCh '(', ws0, rCh ')']

-- /\.\w+\(\)(?!\s*!=\s*null)/
def reNullPointerRisk : RE :=
  cat [rCh '.', w1, rLit "()", .nla (cat [ws0, rLit "!=", ws0, rLit "null"])]

def reGenericExceptionCatch : RE :=
  cat [rLit "catch", ws0, rCh '(', ws0, rLit "Exception", ws1, w1, ws0, rCh ')']

def reResourceLeak : RE :=
  cat [rLit "new", ws1,
    rAltL ["FileInputStream", "FileOutputStream", "BufferedReader", "BufferedWriter",
      "FileReader", "FileWriter"], ws0, rCh '(']

-- /for\s*\([^)]*\)[^}]*\+=\s*["']/
def reStringConcatLoop : RE :=
  cat [rLit "for", ws0, rCh '(', .star (ccNot [.ch ')']), rCh ')',
    .star (ccNot [.ch '\x7d']), rLit "+=", ws0, .cls qcc]

def JAVA_PATTERNS : List Pattern := [
  { id := str "string-equals", type := str "Logic Error", severity := .Critical,
    exec := reExec reStringEquals,
    description := str "String comparison with ==",
    fixDescription := str "Use .equals()",
    correction := fun m => some (replaceFirst m (str "==") (str ".equals(")),
    why := str "== compares references, not values. Use .equals() for strings." },
  { id := str "raw-type", type := str "Code Quality", severity := .Warning,
    exec := reExec reRawType,
    description := str "Raw type without generics",
    fixDescription := str "Add type parameters",
    correction := fun m => some m,
    why := str "Raw types bypass type safety. Use generics like List<String>." },
  { id := str "system-exit", type := str "Code Quality", severity := .Warning,
    exec := reExec reSystemExit,
    description := str "System.exit() in code",
    fixDescription := str "Throw exception instead",
    correction := fun m => some m,
    why := str "System.exit() prevents cleanup and is bad for testing." },
  { id := str "printStackTrace", type := str "Code Quality", severity := .Info,
    exec := reExec rePrintStackTrace,
    description := str "printStackTrace() usage",
    fixDescription := str "Use proper logging",
    correction := fun m => some m,
    why := str "Use a logging framework instead of printStackTrace()." },
  { id := str "null-pointer-risk", type := str "Runtime Error", severity := .Warning,
    exec := reExec reNullPointerRisk,
    description := str "Potential null pointer",
    fixDescription := str "Add null check",
    correction := fun m => some m,
    why := str "Method chains without null checks can throw NullPointerException." },
  { id := str "generic-exception-catch", type := str "Code Quality", severity := .Warning,
    exec := reExec reGenericExceptionCatch,
    description := str "Catching generic Exception",
    fixDescription := str "Catch specific exception types",
    correction := fun m => some m,
    why := str "Catching the generic Exception type hides bugs and makes debugging harder." },
  { id := str "resource-leak", type := str "Runtime Error", severity := .Warning,
    exec := reExec reResourceLeak,
    description := str "Resource opened without try-with-resources",
    fixDescription := str "Use try-with-resources",
    correction := fun m => some m,
    why := str "Streams should be closed with try-with-resources to prevent resource leaks." },
  { id := str "string-concat-loop", type := str "Code Quality", severity := .Warning,
    exec := reExec reStringConcatLoop,
    description := str "String concatenation in loop",
    fixDescription := str "Use StringBuilder",
    correction := fun m => some m,
    why := str "String concatenation in loops creates many temporary objects. Use StringBuilder." }]

/-! ### Go patterns -/

-- /,\s*_\s*:?=\s*\w+\([^)]*\)/
def reIgnoredError : RE :=
  cat [rCh ',', ws0, rCh '_', ws0, .opt (rCh ':'), rCh '=', ws0, w1, rCh '(',
    .star (ccNot [.ch ')']), rCh ')']

def rePanicUsage : RE := cat [.wb, rLit "panic", ws0, rCh '(']

-- /fmt\.Print(?:ln|f)?\s*\(/
def reFmtPrint : RE := cat [rLit "fmt.Print", .opt (rAltL ["ln", "f"]), ws0, rCh '(']

-- /go\s+func\s*\([^)]*\)\s*\{[^}]*for\s*\{/
def reGoroutineLeak : RE :=
  cat [rLit "go", ws1, rLit "func", ws0, rCh '(', .star (ccNot [.ch ')']), rCh ')',
    ws0, rCh '\x7b', .star (ccNot [.ch '\x7d']), rLit "for", ws0, rCh '\x7b']

-- /\btry\s*\{|\bcatch\s*\(/
def reTryCatchGo : RE :=
  .alt (cat [.wb, rLit "try", ws0, rCh '\x7b']) (cat [.wb, rLit "catch", ws0, rCh '('])

-- /os\.Open\s*\([^)]*\)(?![\s\S]*defer[\s\S]*\.Close)/
def reMissingDeferClose : RE :=
  cat [rLit "os.Open", ws0, rCh '(', .star (ccNot [.ch ')']), rCh ')',
    .nla (cat [.star csAny, rLit "defer", .star csAny, rLit ".Close"])]

-- /err\s*:=.*\n.*err\s*:=/
def reErrShadow : RE :=
  cat [rLit "err", ws0, rLit ":=", .star csDot, rCh '\n', .star csDot, rLit "err",
    ws0, rLit ":="]

def GO_PATTERNS : List Pattern := [
  { id := str "ignored-error", type := str "Missing Error Handling", severity := .Critical,
    exec := reExec reIgnoredError,
    description := str "Error ignored with underscore",
    fixDescription := str "Handle the error",
    correction := fun m => some m,
    why := str "Ignoring errors with _ is a common source of bugs in Go." },
  { id := str "panic-usage", type := str "Code Quality", severity := .Warning,
    exec := reExec rePanicUsage,
    description := str "panic() usage",
    fixDescription := str "Return error instead",
    correction := fun m => some m,
    why := str "Prefer returning errors over panicking in library code." },
  { id := str "fmt-print", type := str "Code Quality", severity := .Info,
    exec := reExec reFmtPrint,
    description := str "fmt.Print in production",
    fixDescription := str "Use proper logging",
    correction := fun m => some m,
    why := str "Use log package or structured logging for production." },
  { id := str "goroutine-leak", type := str "Runtime Error", severity := .Warning,
    exec := reExec reGoroutineLeak,
    description := str "Potential goroutine leak",
    fixDescription := str "Add cancellation context",
    correction := fun m => some m,
    why := str "Goroutines with infinite loops need proper cancellation." },
  { id := str "try-catch-go", type := str "Hallucination", severity := .Critical,
    exec := reExec reTryCatchGo,
    description := str "try/catch does not exist in Go",
    fixDescription := str "Use error returns and if err != nil",
    correction := fun _ => some (str "// Use: if err != nil \x7b return err \x7d"),
    why := str "Go uses explicit error returns, not try/catch exceptions." },
  { id := str "missing-defer-close", type := str "Missing Error Handling", severity := .Warning,
    exec := reExec reMissingDeferClose,
    description := str "File opened without defer Close()",
    fixDescription := str "Add defer file.Close()",
    correction := fun m => some m,
    why := str "Files should be closed with defer to prevent resource leaks." },
  { id := str "err-shadow", type := str "Logic Error", severity := .Warning,
    exec := reExec reErrShadow,
    description := str "Error variable shadowing",
    fixDescription := str "Use = instead of := for reassignment",
    correction := fun m => some m,
    why := str "Using := shadows the outer err variable, losing error information." }]

/-! ### Rust patterns -/

def reUnwrapUsage : RE := cat [rLit ".unwrap", ws0, rCh '(', ws0, rCh ')']

def reExpectUsage : RE := cat [rLit ".expect", ws0, rCh '(']

def reCloneOveruse : RE := cat [rLit ".clone", ws0, rCh '(', ws0, rCh ')']

-- /\bunsafe\s*\{/
def reUnsafeBlock : RE := cat [.wb, rLit "unsafe", ws0, rCh '\x7b']

-- /\.unwrap\(\).*\.unwrap\(\)/
def reMultipleUnwrap : RE := cat [rLit ".unwrap()", .star csDot, rLit ".unwrap()"]

-- /&String(?!\s*,)/
def reStringBorrow : RE := cat [rLit "&String", .nla (cat [ws0, rCh ','])]

-- /fn\s+\w+\s*\([^)]*&[^'\s][^)]*\)\s*->\s*&/
def reMissingLifetime : RE :=
  cat [rLit "fn", ws1, w1, ws0, rCh '(', .star (ccNot [.ch ')']), rCh '&',
    .cls (ccNot [.ch '\x27', .ws]), .star (ccNot [.ch ')']), rCh ')', ws0,
    rLit "->", ws0, rCh '&']

def RUST_PATTERNS : List Pattern := [
  { id := str "unwrap-usage", type := str "Runtime Error", severity := .Warning,
    exec := reExec reUnwrapUsage,
    description := str ".unwrap() can panic",
    fixDescription := str "Use ? or match",
    correction := fun m => some (replaceFirst m (str ".unwrap()") (str "?")),
    why := str "unwrap() panics on None/Err. Use ? operator or pattern matching." },
  { id := str "expect-usage", type := str "Runtime Error", severity := .Info,
    exec := reExec reExpectUsage,
    description := str ".expect() can panic",
    fixDescription := str "Use ? or match",
    correction := fun m => some m,
    why := str "expect() panics with a message. Consider proper error handling." },
  { id := str "clone-overuse", type := str "Code Quality", severity := .Info,
    exec := reExec reCloneOveruse,
    description := str "Clone usage - performance impact",
    fixDescription := str "Consider borrowing",
    correction := fun m => some m,
    why := str "Excessive cloning impacts performance. Consider borrowing instead." },
  { id := str "unsafe-block", type := str "Security Risk", severity := .Warning,
    exec := reExec reUnsafeBlock,
    description := str "Unsafe block detected",
    fixDescription := str "Minimize unsafe code",
    correction := fun m => some m,
    why := str "Unsafe blocks bypass Rust safety guarantees. Use sparingly." },
  { id := str "multiple-unwrap", type := str "Code Quality", severity := .Warning,
    exec := reExec reMultipleUnwrap,
    description := str "Multiple .unwrap() in chain",
    fixDescription := str "Use ? operator with Result",
    correction := fun m => some m,
    why := str "Chained unwraps make debugging difficult. Use proper error propagation." },
  { id := str "string-borrow", type := str "Code Quality", severity := .Info,
    exec := reExec reStringBorrow,
    description := str "Borrowing String instead of &str",
    fixDescription := str "Use &str for string references",
    correction := fun m => some (replaceFirst m (str "&String") (str "&str")),
    why := str "&str is more flexible than &String for function parameters." },
  { id := str "missing-lifetime", type := str "Logic Error", severity := .Warning,
    exec := reExec reMissingLifetime,
    description := str "Possible missing lifetime annotation",
    fixDescription := str "Add lifetime parameter",
    correction := fun m => some m,
    why := str "Functions returning references usually need explicit lifetimes." }]

/-! ### C++ patterns -/

-- /\w+\s*\*\s+\w+\s*=\s*new\s+/
def reRawPointer : RE :=
  cat [w1, ws0, rCh '*', ws1, w1, ws0, rCh '=', ws0, rLit "new", ws1]

-- /delete\s+\w+(?!\s*\[\])/
def reDeleteMismatch : RE := cat [rLit "delete", ws1, w1, .nla (cat [ws0, rLit "[]"])]

-- /printf\s*\(\s*\w+\s*\)/
def rePrintfFormat : RE := cat [rLit "printf", ws0, rCh '(', ws0, w1, ws0, rCh ')']

def reGetsUsage : RE := cat [.wb, rLit "gets", ws0, rCh '(']

def reStrcpyUsage : RE := cat [.wb, rLit "strcpy", ws0, rCh '(']

-- /(?:std::)?cout\s*<</
def reCoutDebug : RE := cat [.opt (rLit "std::"), rLit "cout", ws0, rLit "<<"]

def reMallocUsage : RE := cat [.wb, rLit "malloc", ws0, rCh '(']

-- /\bnew\s+\w+(?![^;]*delete)/
def reNewNoDelete : RE :=
  cat [.wb, rLit "new", ws1, w1, .nla (cat [.star (ccNot [.ch ';']), rLit "delete"])]

def reSprintfUsage : RE := cat [.wb, rLit "sprintf", ws0, rCh '(']

def reUsingNamespaceStd : RE :=
  cat [rLit "using", ws1, rLit "namespace", ws1, rLit "std", ws0, rCh ';']

def CPP_PATTERNS : List Pattern := [
  { id := str "raw-pointer", type := str "Code Quality", severity := .Warning,
    exec := reExec reRawPointer,
    description := str "Raw pointer with new",
    fixDescription := str "Use smart pointers",
    correction := fun m => some m,
    why := str "Raw pointers cause memory leaks. Use unique_ptr or shared_ptr." },
  { id := str "delete-mismatch", type := str "Runtime Error", severity := .Critical,
    exec := reExec reDeleteMismatch,
    description := str "Single delete on array?",
    fixDescription := str "Use delete[] for arrays",
    correction := fun m => some m,
    why := str "Using delete instead of delete[] on arrays causes undefined behavior." },
  { id := str "printf-format", type := str "Security Risk", severity := .Warning,
    exec := reExec rePrintfFormat,
    description := str "printf with variable format",
    fixDescription := str "Use \x22%s\x22 format",
    correction := fun m => some m,
    why := str "Variable format strings enable format string attacks." },
  { id := str "gets-usage", type := str "Security Risk", severity := .Critical,
    exec := reExec reGetsUsage,
    description := str "gets() is dangerous",
    fixDescription := str "Use fgets()",
    correction := fun m => some (replaceFirst m (str "gets") (str "fgets")),
    why := str "gets() has no bounds checking, causing buffer overflows." },
  { id := str "strcpy-usage", type := str "Security Risk", severity := .Warning,
    exec := reExec reStrcpyUsage,
    description := str "strcpy() is unsafe",
    fixDescription := str "Use strncpy()",
    correction := fun m => some (replaceFirst m (str "strcpy") (str "strncpy")),
    why := str "strcpy() has no bounds checking. Use strncpy() or std::string." },
  { id := str "cout-debug", type := str "Code Quality", severity := .Info,
    exec := reExec reCoutDebug,
    description := str "cout in production code",
    fixDescription := str "Use proper logging",
    correction := fun m => some m,
    why := str "Use a logging library instead of cout for production." },
  { id := str "malloc-usage", type := str "Code Quality", severity := .Warning,
    exec := reExec reMallocUsage,
    description := str "Using malloc in C++",
    fixDescription := str "Use new or smart pointers",
    correction := fun m => some m,
    why := str "In C++, prefer new/delete or smart pointers over malloc/free." },
  { id := str "new-no-delete", type := str "Runtime Error", severity := .Warning,
    exec := reExec reNewNoDelete,
    description := str "new without corresponding delete",
    fixDescription := str "Use smart pointers or add delete",
    correction := fun m => some m,
    why := str "Memory allocated with new must be freed to prevent leaks." },
  { id := str "sprintf-usage", type := str "Security Risk", severity := .Warning,
    exec := reExec reSprintfUsage,
    description := str "sprintf() is unsafe",
    fixDescription := str "Use snprintf() instead",
    correction := fun m => some (replaceFirst m (str "sprintf") (str "snprintf")),
    why := str "sprintf has no buffer size limit, causing potential overflows." },
  { id := str "using-namespace-std", type := str "Code Quality", severity := .Info,
    exec := reExec reUsingNamespaceStd,
    description := str "using namespace std in header",
    fixDescription := str "Use std:: prefix instead",
    correction := fun m => some m,
    why := str "Pollutes global namespace. Use explicit std:: prefix." }]

/-! ### Helper functions of `patterns.ts` -/

-- `code.substring(0, index).split('\n').length`
def getLineFromIndex (code : Str) (index : Nat) : Nat :=
  (splitOnChar '\n' (code.take index)).length

-- /function\s+(get|calculate|compute|create|find|fetch)\w*/i  (flags kept:
-- `line.match` uses the literal regex, so the `i` flag applies here).
def reFuncHeader : RE :=
  cat [rLit "function", ws1,
    rAltL ["get", "calculate", "compute", "create", "find", "fetch"], w0]

/-- The mutable state of the `lines.forEach` loop in `checkMissingReturn`,
together with the issues pushed so far.  `braceCount` is an `Int` because the
JavaScript counter can go negative. -/
structure MRState where
  insideFunc : Bool
  expectedReturn : Bool
  funcStart : Nat
  braceCount : Int
  issues : List Issue

def mkMissingReturnIssue (funcStart : Nat) : Issue :=
  { id := str "missing-return-" ++ natDigits funcStart,
    line := funcStart + 1,
    type := str "Logic Error",
    severity := .Warning,
    description := str "Function should return a value",
    fix := str "Add return statement",
    startIndex := 0,
    endIndex := 0,
    replacement := [],
    why := str "Functions named get*/calculate*/find* typically should return something." }

def mrStep (st : MRState) (li : Nat × Str) : MRState :=
  let i := li.1
  let line := li.2
  let st :=
    if reTest true reFuncHeader line then
      { st with
          insideFunc := true
          expectedReturn := true
          funcStart := i
          braceCount := 0 }
    else st
  if st.insideFunc then
    let bc : Int := st.braceCount + (line.count '\x7b' : Int) - (line.count '\x7d' : Int)
    let er := if containsSub line (str "return ") then false else st.expectedReturn
    if bc ≤ 0 ∧ containsSub line (str "\x7d") = true then
      { st with
          braceCount := bc
          expectedReturn := false
          insideFunc := false
          issues := if er then st.issues ++ [mkMissingReturnIssue st.funcStart]
                    else st.issues }
    else
      { st with
          braceCount := bc
          expectedReturn := er }
  else st

def checkMissingReturn (code : Str) (language : Language) : List Issue :=
  match language with
  | .javascript | .typescript =>
    ((splitOnChar '\n' code).enum.foldl mrStep
      { insideFunc := false, expectedReturn := false, funcStart := 0, braceCount := 0,
        issues := [] }).issues
  | _ => []

-- line.includes('fetch(') && !line.includes('await ')
--   && !line.includes('return fetch') && !line.includes('.then')
def awaitLineCond (line : Str) : Bool :=
  containsSub line (str "fetch(") && !containsSub line (str "await ") &&
    !containsSub line (str "return fetch") && !containsSub line (str ".then")

def mkMissingAwaitIssue (idx : Nat) (line : Str) : Issue :=
  { id := str "missing-await-fetch-" ++ natDigits idx,
    line := idx + 1,
    type := str "Runtime Error",
    severity := .Critical,
    description := str "fetch() called without await",
    fix := str "Add await keyword",
    startIndex := 0,
    endIndex := 0,
    replacement := replaceFirst line (str "fetch(") (str "await fetch("),
    why := str "fetch() returns a Promise. Without await, you get Promise object, not response." }

def checkMissingAwait (code : Str) (language : Language) : List Issue :=
  match language with
  | .javascript | .typescript =>
    (splitOnChar '\n' code).enum.filterMap
      (fun li => if awaitLineCond li.2 then some (mkMissingAwaitIssue li.1 li.2) else none)
  | _ => []

/-! ### Context filter and scan engine -/

def isInsideCommentOrString (code : Str) (index : Nat) (language : Language) : Bool :=
  let beforeMatch := code.take index
  let lineStart : Nat := (lastIndexOfChar '\n' beforeMatch + 1).toNat
  let lineContent := (code.take index).drop lineStart
  let slashLang :=
    match language with
    | .javascript | .typescript | .java | .cpp | .go | .rust => true
    | _ => false
  (slashLang && containsSub lineContent (str "//")) ||
    (language == .python && containsSub lineContent (str "#")) ||
    (lineContent.count '"' % 2 == 1) ||
    (lineContent.count '\x27' % 2 == 1)

/-- One iteration of the `while ((match = globalRegex.exec(code)) !== null)`
loop, over the precomputed match list.  A `none` from the correction models a
thrown exception: the `try`/`catch` abandons the rest of this rule's matches
but keeps everything already accumulated. -/
def processMatches (code : Str) (p : Pattern) (language : Language) :
    List (Nat × Nat) → List Issue → List Issue
  | [], issues => issues
  | (idx, endIdx) :: ms, issues =>
    if isInsideCommentOrString code idx language then
      processMatches code p language ms issues
    else if issues.any (fun i => i.startIndex == idx && p.id.isPrefixOf i.id) then
      processMatches code p language ms issues
    else
      match p.correction ((code.take endIdx).drop idx) with
      | none => issues
      | some repl =>
        processMatches code p language ms (issues ++ [{
          id := p.id ++ '-' :: natDigits idx,
          line := getLineFromIndex code idx,
          type := p.type,
          severity := p.severity,
          description := p.description,
          fix := p.fixDescription,
          startIndex := idx,
          endIndex := endIdx,
          replacement := repl,
          why := p.why }])

def applyOnePattern (code : Str) (p : Pattern) (language : Language)
    (issues : List Issue) : List Issue :=
  match p.exec code with
  | none => issues
  | some ms => processMatches code p language ms issues

def applyPatterns (code : Str) (patterns : List Pattern) (issues : List Issue)
    (language : Language) : List Issue :=
  patterns.foldl (fun acc p => applyOnePattern code p language acc) issues

/-! ### Main analysis function -/

def severityWeight : Severity → Nat
  | .Critical => 3
  | .Warning => 2
  | .Info => 1

/-- The comparator of `issues.sort` in `analyzeCode`, as the "sorts not after"
relation: `issueLE a b` holds iff the comparator returns a non-positive number
on `(a, b)`, i.e. `a` may stay before `b`. -/
def issueLE (a b : Issue) : Prop :=
  severityWeight b.severity < severityWeight a.severity ∨
    (severityWeight a.severity = severityWeight b.severity ∧ a.line ≤ b.line)

instance : DecidableRel issueLE := fun a b => by
  unfold issueLE
  infer_instance

instance : IsTotal Issue issueLE :=
  ⟨fun a b => by
    unfold issueLE
    omega⟩

instance : IsTrans Issue issueLE :=
  ⟨fun a b c hab hbc => by
    unfold issueLE at *
    omega⟩

/-- The accumulated issue list before ranking and truncation (steps 1-4 of
`analyzeCode`). -/
def analyzeCandidates (code : Str) (language : Language) : List Issue :=
  let issues := applyPatterns code SECURITY_PATTERNS [] language
  let issues := applyPatterns code RUNTIME_PATTERNS issues language
  let issues :=
    match language with
    | .javascript | .typescript =>
      let issues := applyPatterns code JS_TS_PATTERNS issues language
      issues ++ checkMissingAwait code language ++ checkMissingReturn code language
    | .python => applyPatterns code PYTHON_PATTERNS issues language
    | .java => applyPatterns code JAVA_PATTERNS issues language
    | .go => applyPatterns code GO_PATTERNS issues language
    | .rust => applyPatterns code RUST_PATTERNS issues language
    | .cpp => applyPatterns code CPP_PATTERNS issues language
  applyPatterns code QUALITY_PATTERNS issues language

def MAX_ISSUES : Nat := 20

/-- Main entry point `analyzeCode`: accumulate, sort, then
`slice(0, MAX_ISSUES)`.  ECMAScript
`Array.prototype.sort` is stable and the comparator induces a total preorder,
so its output is the unique stable sort, computed here by the stable
`insertionSort` with the comparator's "not after" relation. -/
def analyzeCode (code : Str) (language : Language) : List Issue :=
  (List.insertionSort issueLE (analyzeCandidates code language)).take MAX_ISSUES

/-! ### Caller-side health score (`App.tsx`, `runAnalysis`) -/

def scoreDeduct (issues : List Issue) : Nat :=
  issues.foldl
    (fun deduct i =>
      let deduct := if i.severity = .Critical then deduct + 15 else deduct
      let deduct := if i.severity = .Warning then deduct + 5 else deduct
      if i.severity = .Info then deduct + 1 else deduct)
    0

def healthScore (issues : List Issue) : Int :=
  max 0 (100 - (scoreDeduct issues : Int))

/-! ### Language detection (`detectLanguage`)

These regexes keep their own flags (they are used via `.test`), so the `m`
flag applies where written. -/

-- /\bdef\s+\w+\s*\([^)]*\)\s*:/
def dlPyDef : RE :=
  cat [.wb, rLit "def", ws1, w1, ws0, rCh '(', .star (ccNot [.ch ')']), rCh ')',
    ws0, rCh ':']

-- /^import\s+\w+|^from\s+\w+\s+import/m
def dlPyImport : RE :=
  .alt (cat [.bol, rLit "import", ws1, w1])
    (cat [.bol, rLit "from", ws1, w1, ws1, rLit "import"])

-- /^\s*class\s+\w+\s*:/m
def dlPyClass : RE := cat [.bol, ws0, rLit "class", ws1, w1, ws0, rCh ':']

-- /\bfn\s+\w+\s*[<(]/
def dlRsFn : RE := cat [.wb, rLit "fn", ws1, w1, ws0, .cls (ccOf ['<', '('])]

-- /->\s*(?:Result|Option|Self|&|\w+)/
def dlRsArrow : RE :=
  cat [rLit "->", ws0, rAlts [rLit "Result", rLit "Option", rLit "Self", rLit "&", w1]]

-- /\blet\s+mut\s+/
def dlRsLetMut : RE := cat [.wb, rLit "let", ws1, rLit "mut", ws1]

-- /\bimpl\s+\w+/
def dlRsImpl : RE := cat [.wb, rLit "impl", ws1, w1]

-- /\buse\s+std::/
def dlRsUseStd : RE := cat [.wb, rLit "use", ws1, rLit "std::"]

-- /^package\s+\w+/m
def dlGoPackage : RE := cat [.bol, rLit "package", ws1, w1]

-- /\bfunc\s+\w+\s*\(/
def dlGoFunc : RE := cat [.wb, rLit "func", ws1, w1, ws0, rCh '(']

-- /:=/ and /\bfmt\./
def dlGoAssign : RE := rLit ":="
def dlGoFmt : RE := cat [.wb, rLit "fmt."]

-- /\bpublic\s+class\s+\w+/
def dlJavaPublicClass : RE := cat [.wb, rLit "public", ws1, rLit "class", ws1, w1]

-- /\bprivate\s+\w+\s+\w+\s*\(/
def dlJavaPrivate : RE := cat [.wb, rLit "private", ws1, w1, ws1, w1, ws0, rCh '(']

-- /System\.out\.print/
def dlJavaSysout : RE := rLit "System.out.print"

-- /#include\s*</
def dlCppInclude : RE := cat [rLit "#include", ws0, rCh '<']

-- /\bstd::/
def dlCppStd : RE := cat [.wb, rLit "std::"]

-- /\bint\s+main\s*\(/ and /#include/
def dlCppMain : RE := cat [.wb, rLit "int", ws1, rLit "main", ws0, rCh '(']
def dlCppIncludeAny : RE := rLit "#include"

-- /:\s*(string|number|boolean|any)\b/
def dlTsAnn : RE :=
  cat [rCh ':', ws0, rAltL ["string", "number", "boolean", "any"], .wb]

-- /interface\s+\w+\s*\{/
def dlTsInterface : RE := cat [rLit "interface", ws1, w1, ws0, rCh '\x7b']

-- /\btype\s+\w+\s*=/
def dlTsType : RE := cat [.wb, rLit "type", ws1, w1, ws0, rCh '=']

-- /\b(?:const|let|var)\s+\w+\s*=/
def dlJsDecl : RE := cat [.wb, rAltL ["const", "let", "var"], ws1, w1, ws0, rCh '=']

-- /\bfunction\s+\w+\s*\(/
def dlJsFunction : RE := cat [.wb, rLit "function", ws1, w1, ws0, rCh '(']

-- /=>\s*\{/
def dlJsArrow : RE := cat [rLit "=>", ws0, rCh '\x7b']

def detectLanguage (code : Str) : Language :=
  if reTest false dlPyDef code then .python
  else if reTest false dlPyImport code then .python
  else if reTest false dlPyClass code then .python
  else if reTest false dlRsFn code then .rust
  else if reTest false dlRsArrow code then .rust
  else if reTest false dlRsLetMut code then .rust
  else if reTest false dlRsImpl code then .rust
  else if reTest false dlRsUseStd code then .rust
  else if reTest false dlGoPackage code then .go
  else if reTest false dlGoFunc code then .go
  else if reTest false dlGoAssign code && reTest false dlGoFmt code then .go
  else if reTest false dlJavaPublicClass code then .java
  else if reTest false dlJavaPrivate code then .java
  else if reTest false dlJavaSysout code then .java
  else if reTest false dlCppInclude code then .cpp
  else if reTest false dlCppStd code then .cpp
  else if reTest false dlCppMain code && reTest false dlCppIncludeAny code then .cpp
  else if reTest false dlTsAnn code then .typescript
  else if reTest false dlTsInterface code then .typescript
  else if reTest false dlTsType code then .typescript
  else if reTest false dlJsDecl code then .javascript
  else if reTest false dlJsFunction code then .javascript
  else if reTest false dlJsArrow code then .javascript
  else .javascript

/-! ### Basic facts about `natDigits` -/

theorem natDigitsAux_ne_dash :
    ∀ fuel n, n < fuel → ∀ c ∈ natDigitsAux fuel n, c ≠ '-' := by
  intro fuel
  induction fuel with
  | zero => intro n h; omega
  | succ fuel ih =>
    intro n h c hc
    rw [natDigitsAux] at hc
    by_cases h10 : n < 10
    · simp only [if_pos h10, List.mem_singleton] at hc
      subst hc
      interval_cases n <;> decide
    · simp only [if_neg h10, List.mem_append, List.mem_singleton] at hc
      rcases hc with hc | hc
      · exact ih (n / 10) (by omega) c hc
      · subst hc
        have : n % 10 < 10 := Nat.mod_lt _ (by omega)
        interval_cases h : (n % 10) <;> simp_all <;> decide

theorem natDigits_ne_dash (n : Nat) : ∀ c ∈ natDigits n, c ≠ '-' :=
  natDigitsAux_ne_dash (n + 1) n (Nat.lt_succ_self n)

theorem natDigits_ne_nil (n : Nat) : natDigits n ≠ [] := by
  unfold natDigits natDigitsAux
  by_cases h10 : n < 10 <;> simp [h10]

/-! ### Recovering a rule id from an issue id

Issue ids are built as `ruleId ++ "-" ++ number` (the number is the match
offset for table rules and the line index for the two structural checks), so
the rule id of an issue is its id with the final dash-separated numeric
segment removed. -/

def ruleIdOf (s : Str) : Str := ((s.reverse.dropWhile (fun c => c != '-')).drop 1).reverse

theorem ruleIdOf_append (pid ds : Str) (h : ∀ c ∈ ds, c ≠ '-') :
    ruleIdOf (pid ++ '-' :: ds) = pid := by
  unfold ruleIdOf
  have h1 : (pid ++ '-' :: ds).reverse = ds.reverse ++ '-' :: pid.reverse := by
    simp
  rw [h1, List.dropWhile_append]
  have h2 : ds.reverse.dropWhile (fun c => c != '-') = [] := by
    rw [List.dropWhile_eq_nil_iff]
    intro x hx
    simpa using h x (List.mem_reverse.mp hx)
  rw [h2]
  simp

theorem ruleIdOf_number (pid : Str) (k : Nat) :
    ruleIdOf (pid ++ '-' :: natDigits k) = pid :=
  ruleIdOf_append pid (natDigits k) (natDigits_ne_dash k)

/-! ### C8: the caller-side health score -/

theorem scoreDeduct_go (issues : List Issue) : ∀ d : Nat,
    issues.foldl
      (fun deduct i =>
        let deduct := if i.severity = .Critical then deduct + 15 else deduct
        let deduct := if i.severity = .Warning then deduct + 5 else deduct
        if i.severity = .Info then deduct + 1 else deduct) d =
    d + 15 * issues.countP (fun i => i.severity == .Critical) +
      5 * issues.countP (fun i => i.severity == .Warning) +
      issues.countP (fun i => i.severity == .Info) := by
  induction issues with
  | nil => intro d; simp
  | cons i rest ih =>
    intro d
    rw [List.foldl_cons, ih]
    cases h : i.severity <;> simp [List.countP_cons, h] <;> ring

theorem scoreDeduct_eq (issues : List Issue) :
    scoreDeduct issues =
      15 * issues.countP (fun i => i.severity == .Critical) +
        5 * issues.countP (fun i => i.severity == .Warning) +
        issues.countP (fun i => i.severity == .Info) := by
  unfold scoreDeduct
  rw [scoreDeduct_go]
  omega

/-- C8: for every Issue sequence, the caller-side health score equals
`max(0, 100 − (15·#Critical + 5·#Warning + 1·#Info))`; it is clamped at 0 and
never negative. -/
theorem healthScore_formula (issues : List Issue) :
    healthScore issues =
      max 0 (100 -
        (15 * (issues.countP (fun i => i.severity == .Critical) : Int) +
          5 * (issues.countP (fun i => i.severity == .Warning) : Int) +
          (issues.countP (fun i => i.severity == .Info) : Int))) ∧
    0 ≤ healthScore issues := by
  constructor
  · unfold healthScore
    rw [scoreDeduct_eq]
    push_cast
    ring_nf
  · exact le_max_left 0 _

/-! ### C9: totality and default of `detectLanguage` -/

/-- No fingerprint of the `detectLanguage` waterfall fires on `code`. -/
def noFingerprint (code : Str) : Prop :=
  reTest false dlPyDef code = false ∧
  reTest false dlPyImport code = false ∧
  reTest false dlPyClass code = false ∧
  reTest false dlRsFn code = false ∧
  reTest false dlRsArrow code = false ∧
  reTest false dlRsLetMut code = false ∧
  reTest false dlRsImpl code = false ∧
  reTest false dlRsUseStd code = false ∧
  reTest false dlGoPackage code = false ∧
  reTest false dlGoFunc code = false ∧
  reTest false dlGoAssign code = false ∧
  reTest false dlGoFmt code = false ∧
  reTest false dlJavaPublicClass code = false ∧
  reTest false dlJavaPrivate code = false ∧
  reTest false dlJavaSysout code = false ∧
  reTest false dlCppInclude code = false ∧
  reTest false dlCppStd code = false ∧
  reTest false dlCppMain code = false ∧
  reTest false dlCppIncludeAny code = false ∧
  reTest false dlTsAnn code = false ∧
  reTest false dlTsInterface code = false ∧
  reTest false dlTsType code = false ∧
  reTest false dlJsDecl code = false ∧
  reTest false dlJsFunction code = false ∧
  reTest false dlJsArrow code = false

/-- C9: `detectLanguage` is total, always yields one of the seven languages,
defaults to `javascript` whenever no fingerprint fires, and in particular
returns `javascript` on the empty string. -/
theorem detectLanguage_total :
    detectLanguage (str "") = Language.javascript ∧
    (∀ code : Str,
      detectLanguage code = Language.javascript ∨
      detectLanguage code = Language.typescript ∨
      detectLanguage code = Language.python ∨
      detectLanguage code = Language.go ∨
      detectLanguage code = Language.rust ∨
      detectLanguage code = Language.java ∨
      detectLanguage code = Language.cpp) ∧
    (∀ code : Str, noFingerprint code → detectLanguage code = Language.javascript) := by
  refine ⟨by decide, ?_, ?_⟩
  · intro code
    cases h : detectLanguage code <;> simp
  · intro code h
    obtain ⟨h1, h2, h3, h4, h5, h6, h7, h8, h9, h10, h11, h12, h13, h14, h15, h16,
      h17, h18, h19, h20, h21, h22, h23, h24, h25⟩ := h
    unfold detectLanguage
    simp only [h1, h2, h3, h4, h5, h6, h7, h8, h9, h10, h11, h12, h13, h14, h15,
      h16, h17, h18, h19, h20, h21, h22, h23, h24, h25]
    simp

/-! ### C7: determinism of `analyzeCode` -/

/-- C7: `analyzeCode` is deterministic — two invocations on equal inputs
return identical Issue sequences. -/
theorem analyzeCode_deterministic (code₁ code₂ : Str) (lang₁ lang₂ : Language)
    (hc : code₁ = code₂) (hl : lang₁ = lang₂) :
    analyzeCode code₁ lang₁ = analyzeCode code₂ lang₂ := by
  rw [hc, hl]

theorem analyzeCode_deterministic_witness :
    analyzeCode (str "fetch(x)") Language.javascript =
      analyzeCode (str "fetch(x)") Language.javascript :=
  analyzeCode_deterministic (str "fetch(x)") (str "fetch(x)")
    Language.javascript Language.javascript rfl rfl

/-! ### C3: the cap invariant -/

/-- C3: `analyzeCode` returns at most 20 Issues, and the returned sequence is
exactly the first 20 of the full candidate list sorted by the ranking order
(the sorted list being a permutation of the candidates), never a prefix of
discovery order. -/
theorem analyzeCode_cap (code : Str) (language : Language) :
    (analyzeCode code language).length ≤ 20 ∧
    analyzeCode code language =
      (List.insertionSort issueLE (analyzeCandidates code language)).take 20 ∧
    (List.insertionSort issueLE (analyzeCandidates code language)).Perm
      (analyzeCandidates code language) := by
  refine ⟨?_, rfl, List.perm_insertionSort issueLE _⟩
  simp [analyzeCode, MAX_ISSUES]

/-! ### C4: the ranking invariant and stability -/

theorem filter_pairwise_issueLE (l : List Issue) (s : Severity) (n : Nat) :
    (l.filter (fun i => i.severity == s && i.line == n)).Pairwise issueLE := by
  apply List.pairwise_of_forall_mem_list
  intro x hx y hy
  rw [List.mem_filter, Bool.and_eq_true, beq_iff_eq, beq_iff_eq] at hx hy
  right
  constructor
  · rw [hx.2.1, hy.2.1]
  · rw [hx.2.2, hy.2.2]

theorem insertionSort_filter_stable (l : List Issue) (s : Severity) (n : Nat) :
    (List.insertionSort issueLE l).filter (fun i => i.severity == s && i.line == n) =
      l.filter (fun i => i.severity == s && i.line == n) := by
  have hsub : List.Sublist (l.filter (fun i => i.severity == s && i.line == n))
      (List.insertionSort issueLE l) :=
    List.sublist_insertionSort (filter_pairwise_issueLE l s n) (List.filter_sublist l)
  have hsub2 := hsub.filter (fun i => i.severity == s && i.line == n)
  rw [List.filter_filter] at hsub2
  simp only [Bool.and_self] at hsub2
  have hlen : ((List.insertionSort issueLE l).filter
        (fun i => i.severity == s && i.line == n)).length =
      (l.filter (fun i => i.severity == s && i.line == n)).length :=
    ((List.perm_insertionSort issueLE l).filter _).length_eq
  exact ((hsub2.eq_of_length hlen.symm).symm)

/-- C4: in every `analyzeCode` result, each adjacent pair `(a, b)` satisfies
`severityWeight a > severityWeight b`, or equal weights and `a.line ≤ b.line`
(`Critical`=3, `Warning`=2, `Info`=1); moreover the sort is stable: for any
fixed severity and line, the result lists those issues as a sublist of their
original insertion order in the candidate list. -/
theorem analyzeCode_ranking (code : Str) (language : Language) :
    List.Chain'
      (fun a b => severityWeight b.severity < severityWeight a.severity ∨
        (severityWeight a.severity = severityWeight b.severity ∧ a.line ≤ b.line))
      (analyzeCode code language) ∧
    ∀ (s : Severity) (n : Nat),
      List.Sublist
        ((analyzeCode code language).filter (fun i => i.severity == s && i.line == n))
        ((analyzeCandidates code language).filter
          (fun i => i.severity == s && i.line == n)) := by
  constructor
  · have hs : (List.insertionSort issueLE (analyzeCandidates code language)).Pairwise
        issueLE := List.sorted_insertionSort issueLE _
    have ht : (analyzeCode code language).Pairwise issueLE :=
      hs.sublist (List.take_sublist _ _)
    exact ht.chain'
  · intro s n
    have h1 : List.Sublist
        ((analyzeCode code language).filter (fun i => i.severity == s && i.line == n))
        ((List.insertionSort issueLE (analyzeCandidates code language)).filter
          (fun i => i.severity == s && i.line == n)) :=
      (List.take_sublist _ _).filter _
    rw [insertionSort_filter_stable] at h1
    exact h1

/-! ### C5: per-rule failure recovery -/

theorem processMatches_correction_none (code : Str) (p : Pattern)
    (language : Language) (hcorr : ∀ m, p.correction m = none) :
    ∀ (ms : List (Nat × Nat)) (acc : List Issue),
      processMatches code p language ms acc = acc := by
  intro ms
  induction ms with
  | nil => intro acc; rfl
  | cons m rest ih =>
    intro acc
    obtain ⟨idx, endIdx⟩ := m
    simp only [processMatches]
    split
    · exact ih acc
    · split
      · exact ih acc
      · rw [hcorr]

/-- C5: `analyzeCode`'s scan is total and recovers from per-rule failures: a
rule whose regex scan or correction function throws (modelled by `none`)
contributes no Issue and is skipped, while every rule before and after it is
still processed on the accumulated result. -/
theorem applyPatterns_error_recovery (code : Str) (language : Language)
    (ps₁ ps₂ : List Pattern) (p : Pattern) (acc : List Issue)
    (hfail : p.exec code = none ∨ ∀ m, p.correction m = none) :
    applyPatterns code (ps₁ ++ p :: ps₂) acc language =
      applyPatterns code ps₂ (applyPatterns code ps₁ acc language) language ∧
    applyOnePattern code p language acc = acc := by
  have hskip : ∀ b : List Issue, applyOnePattern code p language b = b := by
    intro b
    rcases hfail with h | h
    · simp [applyOnePattern, h]
    · unfold applyOnePattern
      cases hx : p.exec code with
      | none => rfl
      | some ms => exact processMatches_correction_none code p language h ms b
  refine ⟨?_, hskip acc⟩
  unfold applyPatterns
  rw [List.foldl_append, List.foldl_cons, hskip]

def failingPattern : Pattern :=
  { id := str "failing-rule",
    type := str "Test",
    severity := .Info,
    exec := fun _ => none,
    description := [],
    fixDescription := [],
    correction := fun _ => none,
    why := [] }

theorem applyPatterns_error_recovery_witness :
    applyPatterns (str "fetch(x)") ([] ++ failingPattern :: QUALITY_PATTERNS) []
        Language.javascript =
      applyPatterns (str "fetch(x)") QUALITY_PATTERNS
        (applyPatterns (str "fetch(x)") [] [] Language.javascript) Language.javascript ∧
    applyOnePattern (str "fetch(x)") failingPattern Language.javascript [] = [] :=
  applyPatterns_error_recovery (str "fetch(x)") Language.javascript [] QUALITY_PATTERNS
    failingPattern [] (Or.inl rfl)

/-! ### C6: the context filter suppresses reported occurrences -/

theorem isInside_zero (code : Str) (language : Language) :
    isInsideCommentOrString code 0 language = false := by
  cases language <;> simp only [isInsideCommentOrString, List.take_zero] <;> decide

theorem processMatches_unsuppressed (code : Str) (p : Pattern) (language : Language) :
    ∀ (ms : List (Nat × Nat)) (acc : List Issue),
      (∀ j ∈ acc, isInsideCommentOrString code j.startIndex language = false) →
      ∀ i ∈ processMatches code p language ms acc,
        isInsideCommentOrString code i.startIndex language = false := by
  intro ms
  induction ms with
  | nil => intro acc hacc; exact hacc
  | cons m rest ih =>
    intro acc hacc
    obtain ⟨idx, endIdx⟩ := m
    simp only [processMatches]
    split
    · exact ih acc hacc
    · split
      · exact ih acc hacc
      · rename_i hout hdup
        cases hx : p.correction ((code.take endIdx).drop idx) with
        | none => exact hacc
        | some repl =>
          apply ih
          intro j hj
          rcases List.mem_append.mp hj with hj | hj
          · exact hacc j hj
          · rw [List.mem_singleton] at hj
            subst hj
            exact Bool.not_eq_true _ ▸ (by simpa using hout)

theorem applyPatterns_unsuppressed (code : Str) (language : Language) :
    ∀ (ps : List Pattern) (acc : List Issue),
      (∀ j ∈ acc, isInsideCommentOrString code j.startIndex language = false) →
      ∀ i ∈ applyPatterns code ps acc language,
        isInsideCommentOrString code i.startIndex language = false := by
  intro ps
  induction ps with
  | nil => intro acc hacc; exact hacc
  | cons p rest ih =>
    intro acc hacc
    rw [applyPatterns, List.foldl_cons]
    apply ih
    unfold applyOnePattern
    cases hx : p.exec code with
    | none => exact hacc
    | some ms => exact processMatches_unsuppressed code p language ms acc hacc

/-! ### Shapes of the supplementary structural checks -/

/-- Shape of every issue emitted by `checkMissingReturn`: built by
`mkMissingReturnIssue` from the line index of the function header. -/
def MRIssue (i : Issue) : Prop :=
  ∃ k, i = mkMissingReturnIssue k

/-- Invariant of the `lines.forEach` fold of `checkMissingReturn` after the
first `n` lines: issue shapes, strictly increasing header lines, and when
inside a function the header line precedes the current position while every
already-reported function precedes the header. -/
structure MRInvP (st : MRState) (n : Nat) : Prop where
  shapes : ∀ i ∈ st.issues, MRIssue i
  pairwise : st.issues.Pairwise (fun a b => a.line < b.line)
  bound : ∀ i ∈ st.issues, i.line ≤ n
  inside : st.insideFunc = true →
    st.funcStart < n ∧ ∀ i ∈ st.issues, i.line ≤ st.funcStart

theorem mrInner_inv (st1 : MRState) (n : Nat) (line : Str)
    (hsh : ∀ i ∈ st1.issues, MRIssue i)
    (hpw : st1.issues.Pairwise (fun a b => a.line < b.line))
    (hbd : ∀ i ∈ st1.issues, i.line ≤ n)
    (hfs : st1.funcStart ≤ n)
    (hlf : ∀ i ∈ st1.issues, i.line ≤ st1.funcStart) :
    MRInvP
      (let bc : Int :=
        st1.braceCount + (line.count '\x7b' : Int) - (line.count '\x7d' : Int)
       let er := if containsSub line (str "return ") then false else st1.expectedReturn
       if bc ≤ 0 ∧ containsSub line (str "\x7d") = true then
         { st1 with
             braceCount := bc
             expectedReturn := false
             insideFunc := false
             issues := if er then st1.issues ++ [mkMissingReturnIssue st1.funcStart]
                       else st1.issues }
       else
         { st1 with
             braceCount := bc
             expectedReturn := er }) (n + 1) := by
  set bc : Int :=
    st1.braceCount + (line.count '\x7b' : Int) - (line.count '\x7d' : Int) with hbc
  set er := if containsSub line (str "return ") then false else st1.expectedReturn with her
  by_cases hC : bc ≤ 0 ∧ containsSub line (str "\x7d") = true
  · rw [if_pos hC]
    by_cases hE : er = true
    · rw [if_pos hE]
      refine ⟨?_, ?_, ?_, ?_⟩
      · intro i hi
        rcases List.mem_append.mp hi with hi | hi
        · exact hsh i hi
        · rw [List.mem_singleton] at hi
          exact ⟨st1.funcStart, hi⟩
      · rw [List.pairwise_append]
        refine ⟨hpw, List.pairwise_singleton _ _, ?_⟩
        intro a ha b hb
        rw [List.mem_singleton] at hb
        subst hb
        have := hlf a ha
        simp only [mkMissingReturnIssue]
        omega
      · intro i hi
        rcases List.mem_append.mp hi with hi | hi
        · exact Nat.le_succ_of_le (hbd i hi)
        · rw [List.mem_singleton] at hi
          subst hi
          simp only [mkMissingReturnIssue]
          omega
      · intro hfalse
        simp at hfalse
    · rw [if_neg hE]
      exact ⟨hsh, hpw, fun i hi => Nat.le_succ_of_le (hbd i hi), fun hfalse => by simp at hfalse⟩
  · rw [if_neg hC]
    refine ⟨hsh, hpw, fun i hi => Nat.le_succ_of_le (hbd i hi), ?_⟩
    intro _
    refine ⟨show st1.funcStart < n + 1 by omega, hlf⟩

theorem mrStep_inv (st : MRState) (n : Nat) (line : Str) (h : MRInvP st n) :
    MRInvP (mrStep st (n, line)) (n + 1) := by
  unfold mrStep
  dsimp only
  by_cases hA : reTest true reFuncHeader line = true
  · rw [if_pos hA]
    dsimp only
    rw [if_pos rfl]
    exact mrInner_inv
      { st with
          insideFunc := true
          expectedReturn := true
          funcStart := n
          braceCount := 0 }
      n line h.shapes h.pairwise h.bound (le_refl n) h.bound
  · rw [if_neg hA]
    by_cases hB : st.insideFunc = true
    · rw [if_pos hB]
      obtain ⟨h1, h2⟩ := h.inside hB
      exact mrInner_inv st n line h.shapes h.pairwise h.bound (by omega) h2
    · rw [if_neg hB]
      exact ⟨h.shapes, h.pairwise, fun i hi => Nat.le_succ_of_le (h.bound i hi),
        fun hin => absurd hin hB⟩

theorem MRInvP.mono {st : MRState} {m n : Nat} (h : MRInvP st m) (hmn : m ≤ n) :
    MRInvP st n :=
  ⟨h.shapes, h.pairwise, fun i hi => le_trans (h.bound i hi) hmn,
    fun hin => ⟨lt_of_lt_of_le (h.inside hin).1 hmn, (h.inside hin).2⟩⟩

theorem mr_foldl_inv : ∀ (ls : List Str) (n : Nat) (st : MRState), MRInvP st n →
    MRInvP ((List.enumFrom n ls).foldl mrStep st) (n + ls.length) := by
  intro ls
  induction ls with
  | nil => intro n st h; simpa using h
  | cons l rest ih =>
    intro n st h
    rw [List.enumFrom_cons, List.foldl_cons]
    have h2 := ih (n + 1) (mrStep st (n, l)) (mrStep_inv st n l h)
    exact h2.mono (by simp [List.length_cons]; omega)

theorem checkMissingReturn_facts (code : Str) (language : Language) :
    (∀ i ∈ checkMissingReturn code language, MRIssue i) ∧
    (checkMissingReturn code language).Pairwise (fun a b => a.line < b.line) := by
  have hinit : MRInvP
      { insideFunc := false, expectedReturn := false, funcStart := 0, braceCount := 0,
        issues := [] } 0 :=
    ⟨fun i hi => absurd hi (List.not_mem_nil i), List.Pairwise.nil,
      fun i hi => absurd hi (List.not_mem_nil i), fun hin => by simp at hin⟩
  cases language <;>
    simp only [checkMissingReturn] <;>
    first
      | exact ⟨fun i hi => absurd hi (List.not_mem_nil i), List.Pairwise.nil⟩
      | · have h := mr_foldl_inv (splitOnChar '\n' code) 0 _ hinit
          exact ⟨h.shapes, h.pairwise⟩

theorem enumFrom_fst_pairwise (n : Nat) (ls : List Str) :
    (List.enumFrom n ls).Pairwise (fun a b => a.1 < b.1) := by
  induction ls generalizing n with
  | nil => exact List.Pairwise.nil
  | cons l rest ih =>
    rw [List.enumFrom_cons]
    refine List.Pairwise.cons ?_ (ih (n + 1))
    intro b hb
    obtain ⟨b1, b2⟩ := b
    have := (List.mem_enumFrom hb).1
    simpa using this

theorem checkMissingAwait_facts (code : Str) (language : Language) :
    (∀ i ∈ checkMissingAwait code language,
      ∃ k line, awaitLineCond line = true ∧ i = mkMissingAwaitIssue k line) ∧
    (checkMissingAwait code language).Pairwise (fun a b => a.line < b.line) := by
  cases language <;>
    simp only [checkMissingAwait] <;>
    try exact ⟨fun i hi => absurd hi (List.not_mem_nil i), List.Pairwise.nil⟩
  all_goals constructor
  all_goals try
    · intro i hi
      rw [List.mem_filterMap] at hi
      obtain ⟨⟨k, line⟩, _hmem, hf⟩ := hi
      dsimp only at hf
      by_cases hc : awaitLineCond line = true
      · rw [if_pos hc] at hf
        exact ⟨k, line, hc, (Option.some.inj hf).symm⟩
      · rw [if_neg hc] at hf
        exact absurd hf (by simp)
  all_goals
    · rw [List.pairwise_filterMap]
      apply (enumFrom_fst_pairwise 0 _).imp
      intro a b hab x hx y hy
      by_cases hca : awaitLineCond a.2 = true
      · by_cases hcb : awaitLineCond b.2 = true
        · rw [if_pos hca] at hx
          rw [if_pos hcb] at hy
          rw [Option.mem_def] at hx hy
          have hx2 := Option.some.inj hx
          have hy2 := Option.some.inj hy
          rw [← hx2, ← hy2]
          simpa [mkMissingAwaitIssue] using hab
        · rw [if_neg hcb] at hy
          exact absurd hy (by simp)
      · rw [if_neg hca] at hx
        exact absurd hx (by simp)

theorem suppl_unsuppressed (code : Str) (language : Language) (j : Issue)
    (hj : j ∈ checkMissingAwait code language ∨ j ∈ checkMissingReturn code language) :
    isInsideCommentOrString code j.startIndex language = false := by
  rcases hj with hj | hj
  · obtain ⟨k, line, _, rfl⟩ := (checkMissingAwait_facts code language).1 j hj
    exact isInside_zero code language
  · obtain ⟨k, rfl⟩ := (checkMissingReturn_facts code language).1 j hj
    exact isInside_zero code language

theorem analyzeCandidates_unsuppressed (code : Str) (language : Language) :
    ∀ i ∈ analyzeCandidates code language,
      isInsideCommentOrString code i.startIndex language = false := by
  have hnil : ∀ j ∈ ([] : List Issue),
      isInsideCommentOrString code j.startIndex language = false :=
    fun j hj => absurd hj (List.not_mem_nil j)
  unfold analyzeCandidates
  cases language
  case javascript | typescript =>
    apply applyPatterns_unsuppressed
    intro j hj
    rcases List.mem_append.mp hj with hj | hj
    · rcases List.mem_append.mp hj with hj | hj
      · exact applyPatterns_unsuppressed _ _ _ _
          (applyPatterns_unsuppressed _ _ _ _
            (applyPatterns_unsuppressed _ _ _ _ hnil)) j hj
      · exact suppl_unsuppressed _ _ j (Or.inl hj)
    · exact suppl_unsuppressed _ _ j (Or.inr hj)
  all_goals
    exact applyPatterns_unsuppressed _ _ _ _
      (applyPatterns_unsuppressed _ _ _ _
        (applyPatterns_unsuppressed _ _ _ _
          (applyPatterns_unsuppressed _ _ _ _ hnil)))

/-- C6: every Issue reported by `analyzeCode` sits at a position the context
filter does not suppress; in particular, a table-driven occurrence whose line
prefix contains the language's line-comment marker or an unmatched quote is
never reported at that offset. -/
theorem analyzeCode_suppression (code : Str) (language : Language) (i : Issue)
    (h : i ∈ analyzeCode code language) :
    isInsideCommentOrString code i.startIndex language = false := by
  apply analyzeCandidates_unsuppressed code language i
  have h1 : i ∈ List.insertionSort issueLE (analyzeCandidates code language) :=
    (List.take_sublist _ _).subset h
  exact (List.mem_insertionSort issueLE).mp h1

theorem analyzeCode_suppression_witness :
    isInsideCommentOrString (str "fetch(x)")
      (mkMissingAwaitIssue 0 (str "fetch(x)")).startIndex Language.javascript = false :=
  analyzeCode_suppression (str "fetch(x)") Language.javascript
    (mkMissingAwaitIssue 0 (str "fetch(x)")) (by decide)

/-! ### C2: offsets and replacements of the supplementary checks -/

theorem supplementary_replacement_counterexample :
    ¬ ∀ i ∈ checkMissingAwait (str "fetch(x)") Language.javascript,
        i.replacement = ([] : Str) := by
  decide

/-- C2 (amended): both supplementary checks emit Issues with `startIndex = 0`
and `endIndex = 0`; the missing-return detector also emits an empty
replacement, while the missing-await detector's replacement is the flagged
line with `await ` inserted, not the empty string. -/
theorem supplementary_offsets (code : Str) (language : Language) (i : Issue)
    (h : i ∈ checkMissingAwait code language ∨ i ∈ checkMissingReturn code language) :
    i.startIndex = 0 ∧ i.endIndex = 0 ∧
      (i ∈ checkMissingReturn code language → i.replacement = []) := by
  have hret : i ∈ checkMissingReturn code language → i.replacement = [] := by
    intro hr
    obtain ⟨k, hk⟩ := (checkMissingReturn_facts code language).1 i hr
    rw [hk]
    rfl
  rcases h with h | h
  · obtain ⟨k, line, _, rfl⟩ := (checkMissingAwait_facts code language).1 i h
    exact ⟨rfl, rfl, hret⟩
  · obtain ⟨k, rfl⟩ := (checkMissingReturn_facts code language).1 i h
    exact ⟨rfl, rfl, hret⟩

theorem supplementary_offsets_witness :
    (mkMissingReturnIssue 0).startIndex = 0 ∧ (mkMissingReturnIssue 0).endIndex = 0 ∧
      (mkMissingReturnIssue 0 ∈
          checkMissingReturn (str "function getX() \x7b\n\x7d") Language.javascript →
        (mkMissingReturnIssue 0).replacement = []) :=
  supplementary_offsets (str "function getX() \x7b\n\x7d") Language.javascript
    (mkMissingReturnIssue 0) (Or.inr (by decide))

/-! ### C10: the structural checks bypass the context filter -/

theorem filterMap_await_length (l : List (Nat × Str)) :
    (l.filterMap (fun li =>
      if awaitLineCond li.2 then some (mkMissingAwaitIssue li.1 li.2) else none)).length =
    l.countP (fun li => awaitLineCond li.2) := by
  induction l with
  | nil => rfl
  | cons x rest ih =>
    by_cases hc : awaitLineCond x.2 = true <;>
      simp [List.filterMap_cons, List.countP_cons, hc, ih]

theorem countP_enumFrom (p : Str → Bool) : ∀ (n : Nat) (l : List Str),
    (List.enumFrom n l).countP (fun li => p li.2) = l.countP p := by
  intro n l
  induction l generalizing n with
  | nil => rfl
  | cons x rest ih => simp [List.enumFrom_cons, List.countP_cons, ih]

/-- C10: the missing-await detector never consults the comment/string context
filter — it flags exactly the lines satisfying its textual condition, comments
included; on the single-line comment input `// fetch(url)` the scan result is
exactly the one missing-await-fetch Issue. -/
theorem checkMissingAwait_ignores_filter :
    (∀ code : Str, (checkMissingAwait code Language.javascript).length =
      (splitOnChar '\n' code).countP awaitLineCond) ∧
    analyzeCode (str "// fetch(url)") Language.javascript =
      [mkMissingAwaitIssue 0 (str "// fetch(url)")] ∧
    (mkMissingAwaitIssue 0 (str "// fetch(url)")).id = str "missing-await-fetch-0" ∧
    awaitLineCond (str "// fetch(url)") = true ∧
    containsSub (str "// fetch(url)") (str "//") = true := by
  refine ⟨?_, by decide, by decide, by decide, by decide⟩
  intro code
  show (List.filterMap _ (List.enum (splitOnChar '\n' code))).length = _
  rw [filterMap_await_length]
  exact countP_enumFrom awaitLineCond 0 _

/-! ### C1: deduplication by (rule id, startIndex) -/

def allTableIds : List Str :=
  (SECURITY_PATTERNS ++ RUNTIME_PATTERNS ++ JS_TS_PATTERNS ++ PYTHON_PATTERNS ++
    JAVA_PATTERNS ++ GO_PATTERNS ++ RUST_PATTERNS ++ CPP_PATTERNS ++
    QUALITY_PATTERNS).map Pattern.id

def supplAwaitId : Str := str "missing-await-fetch"

def supplReturnId : Str := str "missing-return"

/-- A table-driven issue: its id is the rule id plus the match offset. -/
def TableIssue (i : Issue) : Prop :=
  ∃ pid, pid ∈ allTableIds ∧ i.id = pid ++ '-' :: natDigits i.startIndex

/-- A supplementary structural issue: startIndex 0 and an id formed from a
supplementary rule id plus a line index. -/
def SupplIssue (i : Issue) : Prop :=
  i.startIndex = 0 ∧ ∃ k, i.id = supplAwaitId ++ '-' :: natDigits k ∨
    i.id = supplReturnId ++ '-' :: natDigits k

def WFIssue (i : Issue) : Prop := TableIssue i ∨ SupplIssue i

/-- Two issues may share both a rule id and a startIndex only when they come
from a supplementary structural check, and then they sit on distinct lines. -/
def distinctRule (a b : Issue) : Prop :=
  (ruleIdOf a.id = ruleIdOf b.id ∧ a.startIndex = b.startIndex) →
    ((ruleIdOf a.id = supplAwaitId ∨ ruleIdOf a.id = supplReturnId) ∧ a.line ≠ b.line)

def GoodAcc (l : List Issue) : Prop :=
  l.Pairwise distinctRule ∧ ∀ i ∈ l, WFIssue i

theorem supplAwait_not_table : supplAwaitId ∉ allTableIds := by decide

theorem supplReturn_not_table : supplReturnId ∉ allTableIds := by decide

theorem supplAwait_ne_return : supplAwaitId ≠ supplReturnId := by decide

theorem mkAwait_id (k : Nat) (line : Str) :
    (mkMissingAwaitIssue k line).id = supplAwaitId ++ '-' :: natDigits k := by
  show str "missing-await-fetch-" ++ natDigits k = _
  rw [show str "missing-await-fetch-" = supplAwaitId ++ ['-'] from rfl]
  simp

theorem mkReturn_id (k : Nat) :
    (mkMissingReturnIssue k).id = supplReturnId ++ '-' :: natDigits k := by
  show str "missing-return-" ++ natDigits k = _
  rw [show str "missing-return-" = supplReturnId ++ ['-'] from rfl]
  simp

theorem tableIssue_ruleId {i : Issue} (h : TableIssue i) :
    ∃ pid, pid ∈ allTableIds ∧ ruleIdOf i.id = pid ∧
      i.id = pid ++ '-' :: natDigits i.startIndex := by
  obtain ⟨pid, hmem, hid⟩ := h
  exact ⟨pid, hmem, by rw [hid, ruleIdOf_number], hid⟩

theorem supplIssue_ruleId {i : Issue} (h : SupplIssue i) :
    ruleIdOf i.id = supplAwaitId ∨ ruleIdOf i.id = supplReturnId := by
  obtain ⟨_, k, hid | hid⟩ := h
  · exact Or.inl (by rw [hid, ruleIdOf_number])
  · exact Or.inr (by rw [hid, ruleIdOf_number])

theorem distinctRule_symm : ∀ {x y : Issue}, distinctRule x y → distinctRule y x := by
  intro x y h hshare
  obtain ⟨h1, h2⟩ := hshare
  obtain ⟨hr, hl⟩ := h ⟨h1.symm, h2.symm⟩
  rw [h1]
  exact ⟨hr, fun hline => hl hline.symm⟩

theorem processMatches_table (code : Str) (p : Pattern) (language : Language)
    (hp : p.id ∈ allTableIds) :
    ∀ (ms : List (Nat × Nat)) (acc : List Issue), (∀ i ∈ acc, TableIssue i) →
      ∀ i ∈ processMatches code p language ms acc, TableIssue i := by
  intro ms
  induction ms with
  | nil => intro acc h; exact h
  | cons m rest ih =>
    intro acc h
    obtain ⟨idx, endIdx⟩ := m
    simp only [processMatches]
    split
    · exact ih acc h
    · split
      · exact ih acc h
      · cases hx : p.correction ((code.take endIdx).drop idx) with
        | none => exact h
        | some repl =>
          apply ih
          intro j hj
          rcases List.mem_append.mp hj with hj | hj
          · exact h j hj
          · rw [List.mem_singleton] at hj
            subst hj
            exact ⟨p.id, hp, rfl⟩

theorem processMatches_good (code : Str) (p : Pattern) (language : Language)
    (hp : p.id ∈ allTableIds) :
    ∀ (ms : List (Nat × Nat)) (acc : List Issue), GoodAcc acc →
      GoodAcc (processMatches code p language ms acc) := by
  intro ms
  induction ms with
  | nil => intro acc h; exact h
  | cons m rest ih =>
    intro acc h
    obtain ⟨idx, endIdx⟩ := m
    simp only [processMatches]
    split
    · exact ih acc h
    · split
      · exact ih acc h
      · rename_i hout hdup
        cases hx : p.correction ((code.take endIdx).drop idx) with
        | none => exact h
        | some repl =>
          apply ih
          constructor
          · rw [List.pairwise_append]
            refine ⟨h.1, List.pairwise_singleton _ _, ?_⟩
            intro x hxmem b hb
            rw [List.mem_singleton] at hb
            subst hb
            intro hshare
            exfalso
            obtain ⟨hs1, hs2⟩ := hshare
            dsimp only at hs1 hs2
            rw [ruleIdOf_number] at hs1
            rcases h.2 x hxmem with htab | hsup
            · obtain ⟨pidx, _hpmem, hrx, hxid⟩ := tableIssue_ruleId htab
              have hpid : pidx = p.id := by rw [← hrx, hs1]
              apply hdup
              rw [List.any_eq_true]
              refine ⟨x, hxmem, ?_⟩
              rw [Bool.and_eq_true, beq_iff_eq]
              refine ⟨hs2, ?_⟩
              rw [List.isPrefixOf_iff_prefix, hxid, hpid]
              exact ⟨'-' :: natDigits x.startIndex, rfl⟩
            · rcases supplIssue_ruleId hsup with haw | hrt
              · rw [hs1] at haw
                exact supplAwait_not_table (haw ▸ hp)
              · rw [hs1] at hrt
                exact supplReturn_not_table (hrt ▸ hp)
          · intro j hj
            rcases List.mem_append.mp hj with hj | hj
            · exact h.2 j hj
            · rw [List.mem_singleton] at hj
              subst hj
              exact Or.inl ⟨p.id, hp, rfl⟩

theorem applyOnePattern_table (code : Str) (p : Pattern) (language : Language)
    (hp : p.id ∈ allTableIds) (acc : List Issue) (h : ∀ i ∈ acc, TableIssue i) :
    ∀ i ∈ applyOnePattern code p language acc, TableIssue i := by
  unfold applyOnePattern
  cases hx : p.exec code with
  | none => exact h
  | some ms => exact processMatches_table code p language hp ms acc h

theorem applyOnePattern_good (code : Str) (p : Pattern) (language : Language)
    (hp : p.id ∈ allTableIds) (acc : List Issue) (h : GoodAcc acc) :
    GoodAcc (applyOnePattern code p language acc) := by
  unfold applyOnePattern
  cases hx : p.exec code with
  | none => exact h
  | some ms => exact processMatches_good code p language hp ms acc h

theorem applyPatterns_table (code : Str) (language : Language) :
    ∀ (ps : List Pattern), (∀ p ∈ ps, p.id ∈ allTableIds) →
      ∀ (acc : List Issue), (∀ i ∈ acc, TableIssue i) →
      ∀ i ∈ applyPatterns code ps acc language, TableIssue i := by
  intro ps
  induction ps with
  | nil => intro _ acc h; exact h
  | cons p rest ih =>
    intro hps acc h
    rw [applyPatterns, List.foldl_cons]
    exact ih (fun q hq => hps q (List.mem_cons_of_mem p hq)) _
      (applyOnePattern_table code p language (hps p (List.mem_cons_self p rest)) acc h)

theorem applyPatterns_good (code : Str) (language : Language) :
    ∀ (ps : List Pattern), (∀ p ∈ ps, p.id ∈ allTableIds) →
      ∀ (acc : List Issue), GoodAcc acc →
      GoodAcc (applyPatterns code ps acc language) := by
  intro ps
  induction ps with
  | nil => intro _ acc h; exact h
  | cons p rest ih =>
    intro hps acc h
    rw [applyPatterns, List.foldl_cons]
    exact ih (fun q hq => hps q (List.mem_cons_of_mem p hq)) _
      (applyOnePattern_good code p language (hps p (List.mem_cons_self p rest)) acc h)

theorem checkMissingAwait_good (code : Str) (language : Language) :
    (∀ i ∈ checkMissingAwait code language, SupplIssue i) ∧
    (checkMissingAwait code language).Pairwise distinctRule := by
  obtain ⟨hsh, hpw⟩ := checkMissingAwait_facts code language
  constructor
  · intro i hi
    obtain ⟨k, line, _, rfl⟩ := hsh i hi
    exact ⟨rfl, k, Or.inl (mkAwait_id k line)⟩
  · refine hpw.imp_of_mem ?_
    intro a b ha hb hlt
    intro _
    obtain ⟨k, line, _, rfl⟩ := hsh a ha
    refine ⟨Or.inl ?_, Nat.ne_of_lt hlt⟩
    rw [mkAwait_id, ruleIdOf_number]

theorem checkMissingReturn_good (code : Str) (language : Language) :
    (∀ i ∈ checkMissingReturn code language, SupplIssue i) ∧
    (checkMissingReturn code language).Pairwise distinctRule := by
  obtain ⟨hsh, hpw⟩ := checkMissingReturn_facts code language
  constructor
  · intro i hi
    obtain ⟨k, rfl⟩ := hsh i hi
    exact ⟨rfl, k, Or.inr (mkReturn_id k)⟩
  · refine hpw.imp_of_mem ?_
    intro a b ha hb hlt
    intro _
    obtain ⟨k, rfl⟩ := hsh a ha
    refine ⟨Or.inr ?_, Nat.ne_of_lt hlt⟩
    rw [mkReturn_id, ruleIdOf_number]

theorem table_suppl_distinct {x y : Issue} (hx : TableIssue x) (hy : SupplIssue y) :
    distinctRule x y := by
  intro hshare
  exfalso
  obtain ⟨pid, hmem, hrx, _⟩ := tableIssue_ruleId hx
  rcases supplIssue_ruleId hy with hry | hry
  · rw [hshare.1, hry] at hrx
    exact supplAwait_not_table (hrx ▸ hmem)
  · rw [hshare.1, hry] at hrx
    exact supplReturn_not_table (hrx ▸ hmem)

theorem goodAcc_append_suppl (code : Str) (language : Language) (X : List Issue)
    (hX : GoodAcc X) (hXt : ∀ i ∈ X, TableIssue i) :
    GoodAcc (X ++ checkMissingAwait code language ++ checkMissingReturn code language) := by
  obtain ⟨haS, haP⟩ := checkMissingAwait_good code language
  obtain ⟨hrS, hrP⟩ := checkMissingReturn_good code language
  constructor
  · rw [List.pairwise_append, List.pairwise_append]
    refine ⟨⟨hX.1, haP, ?_⟩, hrP, ?_⟩
    · intro a ha b hb
      exact table_suppl_distinct (hXt a ha) (haS b hb)
    · intro a ha b hb
      rcases List.mem_append.mp ha with ha | ha
      · exact table_suppl_distinct (hXt a ha) (hrS b hb)
      · intro hshare
        exfalso
        obtain ⟨k, line, _, rfl⟩ := (checkMissingAwait_facts code language).1 a ha
        obtain ⟨k2, rfl⟩ := (checkMissingReturn_facts code language).1 b hb
        have h1 : ruleIdOf (mkMissingAwaitIssue k line).id = supplAwaitId := by
          rw [mkAwait_id, ruleIdOf_number]
        have h2 : ruleIdOf (mkMissingReturnIssue k2).id = supplReturnId := by
          rw [mkReturn_id, ruleIdOf_number]
        exact supplAwait_ne_return (by rw [← h1, hshare.1, h2])
  · intro j hj
    rcases List.mem_append.mp hj with hj | hj
    · rcases List.mem_append.mp hj with hj | hj
      · exact Or.inl (hXt j hj)
      · exact Or.inr (haS j hj)
    · exact Or.inr (hrS j hj)

theorem ids_SECURITY : ∀ p ∈ SECURITY_PATTERNS, p.id ∈ allTableIds := by decide

theorem ids_RUNTIME : ∀ p ∈ RUNTIME_PATTERNS, p.id ∈ allTableIds := by decide

theorem ids_JS_TS : ∀ p ∈ JS_TS_PATTERNS, p.id ∈ allTableIds := by decide

theorem ids_PYTHON : ∀ p ∈ PYTHON_PATTERNS, p.id ∈ allTableIds := by decide

theorem ids_JAVA : ∀ p ∈ JAVA_PATTERNS, p.id ∈ allTableIds := by decide

theorem ids_GO : ∀ p ∈ GO_PATTERNS, p.id ∈ allTableIds := by decide

theorem ids_RUST : ∀ p ∈ RUST_PATTERNS, p.id ∈ allTableIds := by decide

theorem ids_CPP : ∀ p ∈ CPP_PATTERNS, p.id ∈ allTableIds := by decide

theorem ids_QUALITY : ∀ p ∈ QUALITY_PATTERNS, p.id ∈ allTableIds := by decide

theorem analyzeCandidates_good (code : Str) (language : Language) :
    GoodAcc (analyzeCandidates code language) := by
  have hnil : GoodAcc [] :=
    ⟨List.Pairwise.nil, fun i hi => absurd hi (List.not_mem_nil i)⟩
  have hnilT : ∀ i ∈ ([] : List Issue), TableIssue i :=
    fun i hi => absurd hi (List.not_mem_nil i)
  unfold analyzeCandidates
  cases language
  case javascript | typescript =>
    apply applyPatterns_good code _ QUALITY_PATTERNS ids_QUALITY
    apply goodAcc_append_suppl
    · exact applyPatterns_good _ _ _ ids_JS_TS _
        (applyPatterns_good _ _ _ ids_RUNTIME _
          (applyPatterns_good _ _ _ ids_SECURITY _ hnil))
    · exact applyPatterns_table _ _ _ ids_JS_TS _
        (applyPatterns_table _ _ _ ids_RUNTIME _
          (applyPatterns_table _ _ _ ids_SECURITY _ hnilT))
  case python =>
    exact applyPatterns_good _ _ _ ids_QUALITY _
      (applyPatterns_good _ _ _ ids_PYTHON _
        (applyPatterns_good _ _ _ ids_RUNTIME _
          (applyPatterns_good _ _ _ ids_SECURITY _ hnil)))
  case java =>
    exact applyPatterns_good _ _ _ ids_QUALITY _
      (applyPatterns_good _ _ _ ids_JAVA _
        (applyPatterns_good _ _ _ ids_RUNTIME _
          (applyPatterns_good _ _ _ ids_SECURITY _ hnil)))
  case go =>
    exact applyPatterns_good _ _ _ ids_QUALITY _
      (applyPatterns_good _ _ _ ids_GO _
        (applyPatterns_good _ _ _ ids_RUNTIME _
          (applyPatterns_good _ _ _ ids_SECURITY _ hnil)))
  case rust =>
    exact applyPatterns_good _ _ _ ids_QUALITY _
      (applyPatterns_good _ _ _ ids_RUST _
        (applyPatterns_good _ _ _ ids_RUNTIME _
          (applyPatterns_good _ _ _ ids_SECURITY _ hnil)))
  case cpp =>
    exact applyPatterns_good _ _ _ ids_QUALITY _
      (applyPatterns_good _ _ _ ids_CPP _
        (applyPatterns_good _ _ _ ids_RUNTIME _
          (applyPatterns_good _ _ _ ids_SECURITY _ hnil)))

/-- C1 counterexample: on the input `fetch(a)\nfetch(b)` with language
`javascript`, the scan result contains two Issues that share the rule id
`missing-await-fetch` and the startIndex 0, so the claim as stated fails. -/
theorem analyzeCode_dedup_counterexample :
    ¬ ((analyzeCode (str "fetch(a)\nfetch(b)") Language.javascript).Pairwise
        (fun a b => ¬ (ruleIdOf a.id = ruleIdOf b.id ∧ a.startIndex = b.startIndex))) := by
  decide

/-- C1 (amended): any two Issues of an `analyzeCode` result that share both a
rule id and a startIndex come from the supplementary structural checks (rule
id `missing-await-fetch` or `missing-return`, startIndex 0) and carry distinct
line numbers; in particular no two table-driven Issues share both rule id and
startIndex. -/
theorem analyzeCode_dedup (code : Str) (language : Language) :
    (analyzeCode code language).Pairwise distinctRule := by
  have hg := (analyzeCandidates_good code language).1
  have h2 : (List.insertionSort issueLE (analyzeCandidates code language)).Pairwise
      distinctRule :=
    ((List.perm_insertionSort issueLE
      (analyzeCandidates code language)).pairwise_iff distinctRule_symm).mpr hg
  exact h2.sublist (List.take_sublist _ _)

end AIDebug
